import Mathlib

/-!
Verification development for the NumOS FAT32 disk-image builders
(`tools/build_disk.py` and `tools/create_disk_fixed.py`).

The Python programs are embedded shallowly:
* a mutable `bytearray` becomes a `ByteBuf` (an explicit length plus the
  byte stored at each offset), and slice assignment / slice reads follow
  Python semantics exactly, including the clamping of out-of-range slice
  indices and the way an assignment past the end extends the buffer;
* `struct.pack_into`/`struct.pack` of little-endian fields become
  `packInto`/`leBytes`;
* the impure inputs of the programs (the wall clock read by
  `datetime.now()`, the contents of files on the local filesystem) become
  explicit arguments;
* the fixed-length Python list `fat_table` (32768 entries for the 32 MiB
  geometry) is modelled as a total function `Nat → Nat`; theorems that
  depend on its finiteness carry the corresponding bound as a hypothesis.
-/

namespace NumOS

/-- Pointwise update of a byte function: one byte assignment `f[i] = v`. -/
def upd (f : Nat → Nat) (i v : Nat) : Nat → Nat := fun j => if j = i then v else f j

theorem upd_eq (f : Nat → Nat) (i v : Nat) : upd f i v i = v := by
  simp [upd]

theorem upd_ne (f : Nat → Nat) (i v j : Nat) (h : j ≠ i) : upd f i v j = f j := by
  simp [upd, h]

/-- The `k` little-endian bytes of a value, as `struct.pack` emits them. -/
def leBytes : Nat → Nat → List Nat
  | 0, _ => []
  | k + 1, v => v % 256 :: leBytes k (v / 256)

theorem leBytes_length (k v : Nat) : (leBytes k v).length = k := by
  induction k generalizing v with
  | zero => rfl
  | succ k ih => simp [leBytes, ih]

/-- The list `[f 0, f 1, ..., f (n-1)]`: materializes a byte function. -/
def listOfFn (n : Nat) (f : Nat → Nat) : List Nat := (List.range n).map f

theorem listOfFn_length (n : Nat) (f : Nat → Nat) : (listOfFn n f).length = n := by
  simp [listOfFn]

theorem listOfFn_getD (n : Nat) (f : Nat → Nat) (i : Nat) (h : i < n) :
    (listOfFn n f).getD i 0 = f i := by
  simp [listOfFn, List.getD_eq_getElem?_getD, List.getElem?_map, List.getElem?_range h]

/-- Python list/bytearray slice assignment `l[start : start + data.length] = data`:
out-of-range parts of the slice are clamped, so an assignment past the end
inserts at the end. -/
def setSliceList (l : List Nat) (start : Nat) (data : List Nat) : List Nat :=
  l.take (min start l.length) ++ data ++ l.drop (min (start + data.length) l.length)

theorem setSliceList_length (l : List Nat) (start : Nat) (data : List Nat)
    (h : start + data.length ≤ l.length) :
    (setSliceList l start data).length = l.length := by
  simp only [setSliceList, List.length_append, List.length_take, List.length_drop]
  omega

theorem setSliceList_getD_lt (l : List Nat) (start : Nat) (data : List Nat) (p : Nat)
    (h : start + data.length ≤ l.length) (hp : p < start) :
    (setSliceList l start data).getD p 0 = l.getD p 0 := by
  have h1 : start ≤ l.length := le_trans (Nat.le_add_right _ _) h
  have hlt : p < (l.take (min start l.length)).length := by
    rw [List.length_take]; omega
  simp only [setSliceList, List.append_assoc, List.getD_eq_getElem?_getD]
  rw [List.getElem?_append_left hlt,
    List.getElem?_take_of_lt (show p < min start l.length by omega)]

theorem setSliceList_getD_mid (l : List Nat) (start : Nat) (data : List Nat) (p : Nat)
    (h : start + data.length ≤ l.length) (hp1 : start ≤ p) (hp2 : p < start + data.length) :
    (setSliceList l start data).getD p 0 = data.getD (p - start) 0 := by
  have h1 : start ≤ l.length := le_trans (Nat.le_add_right _ _) h
  have hlen : (l.take (min start l.length)).length = start := by
    rw [List.length_take]; omega
  simp only [setSliceList, List.append_assoc, List.getD_eq_getElem?_getD]
  rw [List.getElem?_append_right (by rw [hlen]; omega), hlen,
    List.getElem?_append_left (by omega)]

theorem setSliceList_getD_ge (l : List Nat) (start : Nat) (data : List Nat) (p : Nat)
    (h : start + data.length ≤ l.length) (hp : start + data.length ≤ p) :
    (setSliceList l start data).getD p 0 = l.getD p 0 := by
  have h1 : start ≤ l.length := le_trans (Nat.le_add_right _ _) h
  have hlen : (l.take (min start l.length)).length = start := by
    rw [List.length_take]; omega
  simp only [setSliceList, List.append_assoc, List.getD_eq_getElem?_getD]
  rw [List.getElem?_append_right (by rw [hlen]; omega), hlen,
    List.getElem?_append_right (by omega), List.getElem?_drop]
  congr 2
  omega

/-- `struct.pack_into` of a `k`-byte little-endian value at `off`. -/
def packInto (l : List Nat) (off k v : Nat) : List Nat := setSliceList l off (leBytes k v)

/-- Concatenation of the images of `f` over a list, in order. -/
def catMap (f : Nat → List Nat) : List Nat → List Nat
  | [] => []
  | a :: l => f a ++ catMap f l

/-- A Python `bytearray`: its length and the byte at each offset
(offsets at or beyond `len` are irrelevant junk). -/
structure ByteBuf where
  len : Nat
  byteAt : Nat → Nat

/-- Python bytearray slice assignment `b[start : start + data.length] = data`:
the slice's endpoints are clamped to the current length, the clamped slice is
replaced by `data`, so an in-range assignment overwrites in place and an
assignment past the end inserts at the end and grows the buffer. -/
def ByteBuf.setSlice (b : ByteBuf) (start : Nat) (data : List Nat) : ByteBuf :=
  { len := min start b.len + data.length + (b.len - min (start + data.length) b.len),
    byteAt := fun p =>
      if p < min start b.len then b.byteAt p
      else if p < min start b.len + data.length then data.getD (p - min start b.len) 0
      else b.byteAt (p - (min start b.len + data.length) + min (start + data.length) b.len) }

/-- Python slice read `b[start : stop]` (endpoints clamped to the length). -/
def ByteBuf.getSlice (b : ByteBuf) (start stop : Nat) : List Nat :=
  (List.range (min stop b.len - min start b.len)).map (fun j => b.byteAt (min start b.len + j))

theorem setSlice_len (b : ByteBuf) (start : Nat) (data : List Nat)
    (h : start + data.length ≤ b.len) :
    (b.setSlice start data).len = b.len := by
  simp only [ByteBuf.setSlice]
  omega

theorem setSlice_len_append (b : ByteBuf) (start : Nat) (data : List Nat)
    (h : b.len ≤ start) :
    (b.setSlice start data).len = b.len + data.length := by
  simp only [ByteBuf.setSlice]
  omega

theorem setSlice_byteAt_lt (b : ByteBuf) (start : Nat) (data : List Nat) (p : Nat)
    (hp1 : p < start) (hp2 : p < b.len) :
    (b.setSlice start data).byteAt p = b.byteAt p := by
  have hc : p < min start b.len := by omega
  simp only [ByteBuf.setSlice]
  rw [if_pos hc]

theorem setSlice_byteAt_mid (b : ByteBuf) (start : Nat) (data : List Nat) (p : Nat)
    (h : start ≤ b.len) (hp1 : start ≤ p) (hp2 : p < start + data.length) :
    (b.setSlice start data).byteAt p = data.getD (p - start) 0 := by
  have hmin : min start b.len = start := Nat.min_eq_left h
  simp only [ByteBuf.setSlice, hmin]
  rw [if_neg (by omega), if_pos (by omega)]

theorem setSlice_byteAt_ge (b : ByteBuf) (start : Nat) (data : List Nat) (p : Nat)
    (h : start + data.length ≤ b.len) (hp : start + data.length ≤ p) :
    (b.setSlice start data).byteAt p = b.byteAt p := by
  have h1 : start ≤ b.len := le_trans (Nat.le_add_right _ _) h
  have hmin1 : min start b.len = start := Nat.min_eq_left h1
  have hmin2 : min (start + data.length) b.len = start + data.length := Nat.min_eq_left h
  simp only [ByteBuf.setSlice, hmin1, hmin2]
  rw [if_neg (by omega), if_neg (by omega)]
  congr 1
  omega

theorem getSlice_length (b : ByteBuf) (start stop : Nat)
    (h1 : start ≤ stop) (h2 : stop ≤ b.len) :
    (b.getSlice start stop).length = stop - start := by
  simp only [ByteBuf.getSlice, List.length_map, List.length_range]
  omega

theorem getSlice_getD (b : ByteBuf) (start stop j : Nat)
    (h1 : start + j < stop) (h2 : stop ≤ b.len) :
    (b.getSlice start stop).getD j 0 = b.byteAt (start + j) := by
  have h3 : start ≤ b.len := by omega
  have h4 : j < min stop b.len - min start b.len := by omega
  simp only [ByteBuf.getSlice]
  rw [List.getD_eq_getElem?_getD, List.getElem?_map, List.getElem?_range h4]
  simp [Nat.min_eq_left h3]

namespace BuildDisk

/-- The geometry attributes `Fat32DiskBuilder.__init__` computes once
(build_disk.py lines 13-27) and never mutates afterwards. -/
structure Geometry where
  size_mb : Nat
  size_bytes : Nat
  sector_size : Nat
  sectors_per_cluster : Nat
  reserved_sectors : Nat
  fat_count : Nat
  root_cluster : Nat
  total_sectors : Nat
  sectors_per_fat : Nat
  fat_start_sector : Nat
  data_start_sector : Nat
  bytes_per_cluster : Nat

/-- The values `__init__` assigns for a requested size in MiB: fixed sector
and cluster constants, `sectors_per_fat` hardcoded to 256, and the derived
start sectors. -/
def geometry (size_mb : Nat) : Geometry :=
  { size_mb := size_mb
    size_bytes := size_mb * 1024 * 1024
    sector_size := 512
    sectors_per_cluster := 8
    reserved_sectors := 32
    fat_count := 2
    root_cluster := 2
    total_sectors := size_mb * 1024 * 1024 / 512
    sectors_per_fat := 256
    fat_start_sector := 32
    data_start_sector := 32 + 2 * 256
    bytes_per_cluster := 512 * 8 }

/-- Number of entries of the Python `fat_table` list:
`sectors_per_fat * sector_size // 4` (line 31), 32768 for every geometry. -/
def fatTableLen (g : Geometry) : Nat := g.sectors_per_fat * g.sector_size / 4

/-- The mutable state of `Fat32DiskBuilder`: the image bytearray, the FAT
table list (modelled as a total function, see the file comment) and the
allocation counter. -/
structure DiskState where
  disk_image : ByteBuf
  fat_table : Nat → Nat
  next_free_cluster : Nat

/-- State part of `__init__` (lines 29-32): an all-zero image of
`size_bytes` bytes, an all-zero FAT table, counter at cluster 3. -/
def initState (g : Geometry) : DiskState :=
  { disk_image := { len := g.size_bytes, byteAt := fun _ => 0 }
    fat_table := fun _ => 0
    next_free_cluster := 3 }

/-- `cluster_to_sector` (lines 132-134). -/
def cluster_to_sector (g : Geometry) (cluster : Nat) : Nat :=
  g.data_start_sector + (cluster - 2) * g.sectors_per_cluster

/-- `allocate_cluster` (lines 136-141): returns the counter value, marks its
FAT entry end-of-chain and advances the counter. -/
def allocate_cluster (s : DiskState) : Nat × DiskState :=
  (s.next_free_cluster,
   { s with
      fat_table := upd s.fat_table s.next_free_cluster 0x0FFFFFFF
      next_free_cluster := s.next_free_cluster + 1 })

/-- The 512 boot-sector bytes `create_boot_sector` builds (lines 39-84),
field by field in program order. -/
def bootSectorBytes (g : Geometry) : List Nat :=
  let b := List.replicate 512 0
  let b := setSliceList b 0 [0xEB, 0x58, 0x90]
  let b := setSliceList b 3 [0x4E, 0x75, 0x6D, 0x4F, 0x53, 0x20, 0x20, 0x20]
  let b := packInto b 11 2 g.sector_size
  let b := packInto b 13 1 g.sectors_per_cluster
  let b := packInto b 14 2 g.reserved_sectors
  let b := packInto b 16 1 g.fat_count
  let b := packInto b 17 2 0
  let b := packInto b 19 2 0
  let b := packInto b 21 1 0xF8
  let b := packInto b 22 2 0
  let b := packInto b 24 2 63
  let b := packInto b 26 2 255
  let b := packInto b 28 4 0
  let b := packInto b 32 4 g.total_sectors
  let b := packInto b 36 4 g.sectors_per_fat
  let b := packInto b 40 2 0
  let b := packInto b 42 2 0
  let b := packInto b 44 4 g.root_cluster
  let b := packInto b 48 2 1
  let b := packInto b 50 2 6
  let b := (List.range' 52 12).foldl (fun bb i => bb.set i 0) b
  let b := packInto b 64 1 0x80
  let b := packInto b 65 1 0
  let b := packInto b 66 1 0x29
  let b := packInto b 67 4 0x12345678
  let b := setSliceList b 71 [0x4E, 0x75, 0x6D, 0x4F, 0x53, 0x20, 0x46, 0x41, 0x54, 0x33, 0x32]
  let b := setSliceList b 82 [0x46, 0x41, 0x54, 0x33, 0x32, 0x20, 0x20, 0x20]
  packInto b 510 2 0xAA55

/-- `create_boot_sector` (line 87): writes the 512 bytes at offset 0 only;
no copy is made at the backup location. -/
def create_boot_sector (g : Geometry) (s : DiskState) : DiskState :=
  { s with disk_image := s.disk_image.setSlice 0 (bootSectorBytes g) }

/-- The FSInfo sector bytes (lines 90-99). -/
def fsinfoBytes : List Nat :=
  let f := List.replicate 512 0
  let f := packInto f 0 4 0x41615252
  let f := packInto f 484 4 0x61417272
  let f := packInto f 488 4 0xFFFFFFFF
  let f := packInto f 492 4 3
  packInto f 510 2 0xAA55

/-- `create_fsinfo` (line 102): writes the FSInfo sector at offset 512. -/
def create_fsinfo (s : DiskState) : DiskState :=
  { s with disk_image := s.disk_image.setSlice 512 fsinfoBytes }

/-- The FAT bootstrap `initialize_fat` (lines 105-112); the Lean name is
shortened. Entries 0, 1 and 2 (media descriptor, end of chain, root). -/
def initFat (s : DiskState) : DiskState :=
  { s with
      fat_table := upd (upd (upd s.fat_table 0 (0x0FFFFF00 ||| 0xF8)) 1 0x0FFFFFFF) 2 0x0FFFFFFF }

/-- Serialization of the first `n` FAT entries as little-endian 32-bit
values, in index order (`write_fat_tables` lines 116-118). -/
def fatDataBytes (fat : Nat → Nat) : Nat → List Nat
  | 0 => []
  | n + 1 => fatDataBytes fat n ++ leBytes 4 (fat n)

/-- `write_fat_tables` (lines 114-130): the serialized table (already a
whole number of sectors, so the padding loop appends nothing) written
`fat_count` times starting at `fat_start_sector`. -/
def write_fat_tables (g : Geometry) (s : DiskState) : DiskState :=
  let fat_data := fatDataBytes s.fat_table (fatTableLen g)
  { s with
      disk_image :=
        (List.range g.fat_count).foldl
          (fun img i =>
            img.setSlice ((g.fat_start_sector + i * g.sectors_per_fat) * g.sector_size) fat_data)
          s.disk_image }

/-- The root-directory cluster `create_root_directory` builds (lines
143-151): a volume-label entry in slot 0 of an otherwise empty cluster. -/
def rootDirBytes (g : Geometry) : List Nat :=
  let volume_entry := setSliceList (List.replicate 32 0) 0
    [0x4E, 0x75, 0x6D, 0x4F, 0x53, 0x20, 0x46, 0x41, 0x54, 0x33, 0x32]
  let volume_entry := volume_entry.set 11 0x08
  setSliceList (List.replicate g.bytes_per_cluster 0) 0 volume_entry

/-- `create_root_directory` (lines 153-157): writes the root cluster at its
mapped sector offset. -/
def create_root_directory (g : Geometry) (s : DiskState) : DiskState :=
  { s with
      disk_image :=
        s.disk_image.setSlice (cluster_to_sector g g.root_cluster * g.sector_size)
          (rootDirBytes g) }

/-- The fields `add_file_to_directory` reads from `datetime.now()` (lines
218-220): the wall clock is an explicit input of the embedding. -/
structure Now where
  hour : Nat
  minute : Nat
  second : Nat
  year : Nat
  month : Nat
  day : Nat

/-- `time_val` of line 219. -/
def timeVal (now : Now) : Nat :=
  (now.hour <<< 11) ||| (now.minute <<< 5) ||| (now.second / 2)

/-- `date_val` of line 220. -/
def dateVal (now : Now) : Nat :=
  ((now.year - 1980) <<< 9) ||| (now.month <<< 5) ||| now.day

/-- The 32-byte directory entry built at lines 213-229. The caller passes
the 11-byte 8.3-formatted name that lines 167-170 produce. -/
def dirEntryBytes (fat_filename : List Nat) (time_val date_val first_cluster file_size : Nat) :
    List Nat :=
  let entry := List.replicate 32 0
  let entry := setSliceList entry 0 fat_filename
  let entry := entry.set 11 0x20
  let entry := packInto entry 14 2 time_val
  let entry := packInto entry 16 2 date_val
  let entry := packInto entry 18 2 date_val
  let entry := packInto entry 20 2 (first_cluster >>> 16)
  let entry := packInto entry 22 2 time_val
  let entry := packInto entry 24 2 date_val
  let entry := packInto entry 26 2 (first_cluster &&& 0xFFFF)
  packInto entry 28 4 file_size

/-- The slot scan of lines 211-212: the first index i = 0, 32, 64, ... whose
byte is empty (0x00) or deleted (0xE5). The fuel argument only bounds the
recursion; every call passes `dir_data.length`, which the stride-32 walk can
never exhaust. -/
def scanSlots (dir_data : List Nat) : Nat → Nat → Option Nat
  | _, 0 => none
  | i, fuel + 1 =>
    if i < dir_data.length then
      if dir_data.getD i 0 = 0x00 ∨ dir_data.getD i 0 = 0xE5 then some i
      else scanSlots dir_data (i + 32) fuel
    else none

/-- Entry insertion at the found slot plus the end-of-directory marking of
lines 231-235 (the following slot is zeroed unless it is a deleted entry). -/
def insertEntry (dir_data entry : List Nat) (i : Nat) : List Nat :=
  let d := setSliceList dir_data i entry
  if i + 32 < d.length ∧ d.getD (i + 32) 0 ≠ 0xE5 then d.set (i + 32) 0 else d

/-- The image offset the data-placement loop computes for chunk i
(lines 193-194). -/
def chunkTargetOffset (g : Geometry) (first_cluster i : Nat) : Nat :=
  cluster_to_sector g (first_cluster + i) * g.sector_size

/-- Chunk i of the payload as lines 196-201 slice and zero-pad it to a full
cluster. -/
def chunkPadded (g : Geometry) (file_data : List Nat) (i : Nat) : List Nat :=
  let chunk_start := i * g.bytes_per_cluster
  let chunk_end := min ((i + 1) * g.bytes_per_cluster) file_data.length
  let chunk_data := (file_data.drop chunk_start).take (chunk_end - chunk_start)
  chunk_data ++ List.replicate (g.bytes_per_cluster - chunk_data.length) 0

/-- One iteration of the data-placement loop (lines 192-203): write the
padded chunk at the chunk's target offset. -/
def writeChunk (g : Geometry) (file_data : List Nat) (first_cluster : Nat)
    (img : ByteBuf) (i : Nat) : ByteBuf :=
  img.setSlice (chunkTargetOffset g first_cluster i) (chunkPadded g file_data i)

/-- The whole data-placement loop `for i in range(clusters_needed)`. -/
def writeAllChunks (g : Geometry) (file_data : List Nat) (first_cluster clusters_needed : Nat)
    (img : ByteBuf) : ByteBuf :=
  (List.range clusters_needed).foldl (writeChunk g file_data first_cluster) img

/-- The chain-extension loop of lines 186-189: allocate `k` more clusters
after `current`, linking each predecessor to its successor. -/
def linkClusters (s : DiskState) (current : Nat) : Nat → DiskState
  | 0 => s
  | k + 1 =>
    let a := allocate_cluster s
    let s2 := { a.2 with fat_table := upd a.2.fat_table current a.1 }
    linkClusters s2 a.1 k

/-- The cluster count of lines 175-176: `ceil(file_size / bytes_per_cluster)`. -/
def clustersNeeded (g : Geometry) (file_size : Nat) : Nat :=
  (file_size + g.bytes_per_cluster - 1) / g.bytes_per_cluster

/-- The allocation phase of lines 178-189: for an empty payload nothing is
allocated and the first cluster is 0; otherwise the first cluster comes from
the allocator and the chain-extension loop links the rest. Returns
(first_cluster, state after allocation). -/
def allocChain (g : Geometry) (s : DiskState) (file_size : Nat) : Nat × DiskState :=
  if 0 < file_size then
    let a := allocate_cluster s
    (a.1, linkClusters a.2 a.1 (clustersNeeded g file_size - 1))
  else (0, s)

/-- The image after the data-placement loop of lines 192-203 (the `img`
local state of the method at line 205). -/
def addImg (g : Geometry) (s : DiskState) (file_data : List Nat) : ByteBuf :=
  writeAllChunks g file_data (allocChain g s file_data.length).1
    (clustersNeeded g file_data.length) (allocChain g s file_data.length).2.disk_image

/-- The directory-cluster bytes read back at lines 205-208, after the data
chunks were written. -/
def addDirData (g : Geometry) (s : DiskState) (file_data : List Nat)
    (directory_cluster : Nat) : List Nat :=
  ByteBuf.getSlice (addImg g s file_data)
    (cluster_to_sector g directory_cluster * g.sector_size)
    (cluster_to_sector g directory_cluster * g.sector_size + g.bytes_per_cluster)

/-- `add_file_to_directory` (lines 161-244) for an 11-byte already-formatted
name: allocate and link the chain, write the data chunks, scan the directory
cluster for a free slot, insert the entry and write the directory cluster
back. Returns `none` where the Python raises the directory-full Exception. -/
def add_file_to_directory (g : Geometry) (s : DiskState) (fat_filename file_data : List Nat)
    (directory_cluster : Nat) (now : Now) : Option DiskState :=
  let dir_data := addDirData g s file_data directory_cluster
  match scanSlots dir_data 0 dir_data.length with
  | none => none
  | some i =>
    let entry := dirEntryBytes fat_filename (timeVal now) (dateVal now)
      (allocChain g s file_data.length).1 file_data.length
    some { (allocChain g s file_data.length).2 with
            disk_image := ByteBuf.setSlice (addImg g s file_data)
              (cluster_to_sector g directory_cluster * g.sector_size)
              (insertEntry dir_data entry i) }

/-- `add_file` (lines 246-258): the local filesystem is an input; `none`
models a missing path, which is skipped with a warning while the build
continues on the unchanged state. -/
def add_file (g : Geometry) (s : DiskState) (contents : Option (List Nat))
    (disk_filename : List Nat) (now : Now) : Option DiskState :=
  match contents with
  | none => some s
  | some file_data => add_file_to_directory g s disk_filename file_data g.root_cluster now

/-- `save` (lines 260-264): the byte sequence written to the output file is
the whole in-memory image. -/
def saveBytes (s : DiskState) : List Nat := listOfFn s.disk_image.len s.disk_image.byteAt

/-- The structural part of `main`'s build sequence (lines 276-282): boot
sector, FSInfo, FAT bootstrap, root directory, on a fresh state. File
additions happen on top of this state; `write_fat_tables` and `save`
follow them. -/
def structuralState (m : Nat) : DiskState :=
  create_root_directory (geometry m)
    (initFat (create_fsinfo (create_boot_sector (geometry m) (initState (geometry m)))))

/-- Claim-side reading of a FAT chain: follow entries from `c` until an
end-of-chain marker (a value at or above 0x0FFFFFF8), fuel-bounded. -/
def chainFrom (fat : Nat → Nat) : Nat → Nat → List Nat
  | _, 0 => []
  | c, fuel + 1 => c :: (if 0x0FFFFFF8 ≤ fat c then [] else chainFrom fat (fat c) fuel)

/-- Claim-side read-back of a file: the image bytes of each cluster of the
chain through `cluster_to_sector`, concatenated in chain order. -/
def readChain (g : Geometry) (img : ByteBuf) (fat : Nat → Nat) (first fuel : Nat) : List Nat :=
  catMap
    (fun c =>
      img.getSlice (cluster_to_sector g c * g.sector_size)
        (cluster_to_sector g c * g.sector_size + g.bytes_per_cluster))
    (chainFrom fat first fuel)

/-- Claim-side count of addressable data clusters for a geometry. -/
def dataClusters (g : Geometry) : Nat :=
  (g.total_sectors - g.data_start_sector) / g.sectors_per_cluster

@[simp] theorem geometry_size_bytes (m : Nat) : (geometry m).size_bytes = m * 1024 * 1024 := rfl

@[simp] theorem geometry_sector_size (m : Nat) : (geometry m).sector_size = 512 := rfl

@[simp] theorem geometry_sectors_per_cluster (m : Nat) : (geometry m).sectors_per_cluster = 8 := rfl

@[simp] theorem geometry_reserved_sectors (m : Nat) : (geometry m).reserved_sectors = 32 := rfl

@[simp] theorem geometry_fat_count (m : Nat) : (geometry m).fat_count = 2 := rfl

@[simp] theorem geometry_root_cluster (m : Nat) : (geometry m).root_cluster = 2 := rfl

@[simp] theorem geometry_total_sectors (m : Nat) :
    (geometry m).total_sectors = m * 1024 * 1024 / 512 := rfl

@[simp] theorem geometry_sectors_per_fat (m : Nat) : (geometry m).sectors_per_fat = 256 := rfl

@[simp] theorem geometry_fat_start_sector (m : Nat) : (geometry m).fat_start_sector = 32 := rfl

@[simp] theorem geometry_data_start_sector (m : Nat) :
    (geometry m).data_start_sector = 544 := rfl

@[simp] theorem geometry_bytes_per_cluster (m : Nat) : (geometry m).bytes_per_cluster = 4096 := rfl

theorem cluster_to_sector_geometry (m c : Nat) :
    cluster_to_sector (geometry m) c = 544 + (c - 2) * 8 := rfl

/-- Unfolding of one step of the chain-extension loop. -/
theorem linkClusters_succ (s : DiskState) (c k : Nat) :
    linkClusters s c (k + 1) =
      linkClusters
        { disk_image := s.disk_image
          fat_table := upd (upd s.fat_table s.next_free_cluster 0x0FFFFFFF) c s.next_free_cluster
          next_free_cluster := s.next_free_cluster + 1 }
        s.next_free_cluster k := rfl

/-- Effect of the whole allocation loop on the state: the counter advances
past the chain, the image is untouched, and the FAT holds the chain
first, first+1, ..., first+k with the last entry end-of-chain. -/
theorem linkClusters_spec (k : Nat) :
    ∀ (s : DiskState) (c : Nat), s.next_free_cluster = c + 1 → s.fat_table c = 0x0FFFFFFF →
      (linkClusters s c k).next_free_cluster = c + k + 1 ∧
      (linkClusters s c k).disk_image = s.disk_image ∧
      ∀ x, (linkClusters s c k).fat_table x =
        if c ≤ x ∧ x < c + k then x + 1
        else if x = c + k then 0x0FFFFFFF
        else s.fat_table x := by
  induction k with
  | zero =>
    intro s c h1 h2
    refine ⟨by simpa [linkClusters] using h1, rfl, ?_⟩
    intro x
    by_cases hx : x = c
    · subst hx
      rw [if_neg (by omega), if_pos (by omega)]
      simpa [linkClusters] using h2
    · show s.fat_table x = _
      rw [if_neg (by omega), if_neg (by omega)]
  | succ k ih =>
    intro s c h1 h2
    rw [linkClusters_succ, h1]
    obtain ⟨hn, hd, hf⟩ := ih
      { disk_image := s.disk_image
        fat_table := upd (upd s.fat_table (c + 1) 0x0FFFFFFF) c (c + 1)
        next_free_cluster := c + 1 + 1 }
      (c + 1) rfl
      (by
        show upd (upd s.fat_table (c + 1) 0x0FFFFFFF) c (c + 1) (c + 1) = 0x0FFFFFFF
        rw [upd_ne _ _ _ _ (by omega), upd_eq])
    refine ⟨by rw [hn]; omega, hd, ?_⟩
    intro x
    rw [hf x]
    by_cases hx1 : x = c
    · subst hx1
      rw [if_neg (by omega), if_neg (by omega), if_pos (by omega)]
      show upd _ _ _ _ = _
      rw [upd_eq]
    · by_cases hx2 : c + 1 ≤ x ∧ x < c + 1 + k
      · rw [if_pos hx2, if_pos (by omega)]
      · by_cases hx3 : x = c + 1 + k
        · rw [if_neg hx2, if_pos hx3, if_neg (by omega), if_pos (by omega)]
        · rw [if_neg hx2, if_neg hx3, if_neg (by omega), if_neg (by omega)]
          show upd _ _ _ _ = _
          rw [upd_ne _ _ _ _ (by omega)]
          by_cases hx4 : x = c + 1
          · omega
          · rw [upd_ne _ _ _ _ (by omega)]

/-- Walking a FAT that holds the consecutive chain
first, ..., first + n - 1 (last entry end-of-chain) visits exactly those
clusters, in order, even with one spare unit of fuel. -/
theorem chainFrom_range' (n : Nat) :
    ∀ (fat : Nat → Nat) (first : Nat), 1 ≤ n →
      (∀ i, i + 1 < n → fat (first + i) = first + i + 1) →
      0x0FFFFFF8 ≤ fat (first + (n - 1)) →
      first + n ≤ 0x0FFFFFF8 →
      chainFrom fat first (n + 1) = List.range' first n := by
  induction n with
  | zero => omega
  | succ n ih =>
    intro fat first _ hmid hlast hsmall
    cases n with
    | zero =>
      have h : 0x0FFFFFF8 ≤ fat first := by simpa using hlast
      simp [chainFrom, h]
    | succ n' =>
      have hstep : fat first = first + 1 := by simpa using hmid 0 (by omega)
      have hcond : ¬ 0x0FFFFFF8 ≤ fat first := by omega
      show first :: _ = _
      rw [if_neg hcond, hstep]
      have htail := ih fat (first + 1) (by omega)
        (fun i hi => by
          have := hmid (i + 1) (by omega)
          rw [show first + 1 + i = first + (i + 1) by omega, this])
        (by rw [show first + 1 + (n' + 1 - 1) = first + (n' + 1 + 1 - 1) by omega]; exact hlast)
        (by omega)
      rw [htail]
      exact (List.range'_succ first (n' + 1) 1).symm

theorem catMap_append (f : Nat → List Nat) (l1 l2 : List Nat) :
    catMap f (l1 ++ l2) = catMap f l1 ++ catMap f l2 := by
  induction l1 with
  | nil => rfl
  | cons a l ih => simp [catMap, ih]

theorem catMap_map (f : Nat → List Nat) (h : Nat → Nat) (l : List Nat) :
    catMap f (l.map h) = catMap (fun x => f (h x)) l := by
  induction l with
  | nil => rfl
  | cons a l ih => simp [catMap, ih]

theorem catMap_congr (f f2 : Nat → List Nat) (l : List Nat) (h : ∀ a, f a = f2 a) :
    catMap f l = catMap f2 l := by
  induction l with
  | nil => rfl
  | cons a l ih => simp [catMap, ih, h]

/-- Concatenating the k-byte windows of L at offsets 0, k, 2k, ... rebuilds
a prefix of L. -/
theorem catMap_windows (k : Nat) :
    ∀ (n : Nat) (L : List Nat), n * k ≤ L.length →
      catMap (fun i => listOfFn k (fun r => L.getD (i * k + r) 0)) (List.range n) =
        L.take (n * k) := by
  intro n
  induction n with
  | zero => intro L _; simp [catMap]
  | succ n ih =>
    intro L hlen
    rw [Nat.succ_mul] at hlen
    rw [List.range_succ, catMap_append]
    rw [ih L (by omega)]
    have hwin : listOfFn k (fun r => L.getD (n * k + r) 0) = (L.drop (n * k)).take k := by
      apply List.ext_getElem
      · simp only [listOfFn_length, List.length_take, List.length_drop]
        omega
      · intro r h1 h2
        rw [listOfFn_length] at h1
        have hr : n * k + r < L.length := by omega
        simp only [listOfFn, List.getElem_map, List.getElem_range, List.getElem_take,
          List.getElem_drop]
        rw [List.getD_eq_getElem?_getD, List.getElem?_eq_getElem hr]
        rfl
    simp only [catMap, List.append_nil]
    rw [hwin, Nat.succ_mul, List.take_add]

theorem chunkPadded_length (g : Geometry) (file_data : List Nat) (i : Nat) :
    (chunkPadded g file_data i).length = g.bytes_per_cluster := by
  simp only [chunkPadded, List.length_append, List.length_replicate, List.length_take,
    List.length_drop, Nat.succ_mul]
  omega

/-- For i below the cluster count of the payload, padded chunk i reads the
window [i*4096, (i+1)*4096) of the zero-extended payload. -/
theorem chunkPadded_getD (m : Nat) (file_data : List Nat) (i n r : Nat)
    (hn : n = (file_data.length + 4095) / 4096) (hi : i < n) (hr : r < 4096) :
    (chunkPadded (geometry m) file_data i).getD r 0 =
      (file_data ++ List.replicate (n * 4096 - file_data.length) 0).getD (i * 4096 + r) 0 := by
  have hSle : file_data.length ≤ n * 4096 := by omega
  simp only [chunkPadded, geometry_bytes_per_cluster, List.getD_eq_getElem?_getD,
    List.getElem?_append]
  have hcdlen : ((file_data.drop (i * 4096)).take
      (min ((i + 1) * 4096) file_data.length - i * 4096)).length =
      min (min ((i + 1) * 4096) file_data.length - i * 4096)
        (file_data.length - i * 4096) := by
    simp [List.length_take, List.length_drop]
  by_cases hc : i * 4096 + r < file_data.length
  · rw [if_pos (by rw [hcdlen]; omega), if_pos (by omega)]
    rw [List.getElem?_take_of_lt (by omega), List.getElem?_drop]
  · rw [if_neg (by rw [hcdlen]; omega), if_neg (by omega)]
    rw [hcdlen]
    have h1 : min (min ((i + 1) * 4096) file_data.length - i * 4096)
        (file_data.length - i * 4096) = file_data.length - i * 4096 := by omega
    rw [h1]
    rw [List.getElem?_replicate, List.getElem?_replicate]
    rw [if_pos (by omega), if_pos (by omega)]

/-- Effect of the data-placement loop on the image: the length is
preserved, bytes below the data region and at or beyond its end are
untouched, and the n written clusters hold the padded chunks. -/
theorem writeAllChunks_spec (m : Nat) (file_data : List Nat) (first : Nat) (n : Nat) :
    ∀ (img : ByteBuf), 2 ≤ first →
      chunkTargetOffset (geometry m) first 0 + n * 4096 ≤ img.len →
      (writeAllChunks (geometry m) file_data first n img).len = img.len ∧
      (∀ q, q < chunkTargetOffset (geometry m) first 0 → q < img.len →
        (writeAllChunks (geometry m) file_data first n img).byteAt q = img.byteAt q) ∧
      (∀ i r, i < n → r < 4096 →
        (writeAllChunks (geometry m) file_data first n img).byteAt
          (chunkTargetOffset (geometry m) first 0 + (i * 4096 + r)) =
          (chunkPadded (geometry m) file_data i).getD r 0) ∧
      (∀ q, chunkTargetOffset (geometry m) first 0 + n * 4096 ≤ q →
        (writeAllChunks (geometry m) file_data first n img).byteAt q = img.byteAt q) := by
  induction n with
  | zero =>
    intro img h2 hcap
    refine ⟨rfl, fun q _ _ => rfl, fun i r hi _ => absurd hi (by omega), fun q _ => rfl⟩
  | succ n ih =>
    intro img h2 hcap
    have hoff : ∀ j, chunkTargetOffset (geometry m) first j =
        chunkTargetOffset (geometry m) first 0 + j * 4096 := by
      intro j
      simp only [chunkTargetOffset, cluster_to_sector_geometry, geometry_sector_size]
      have : first + j - 2 = (first - 2) + j := by omega
      rw [this]
      ring_nf
    obtain ⟨ihlen, ihlow, ihmid, ihhigh⟩ := ih img h2 (by omega)
    have hW : writeAllChunks (geometry m) file_data first (n + 1) img =
        (writeAllChunks (geometry m) file_data first n img).setSlice
          (chunkTargetOffset (geometry m) first n) (chunkPadded (geometry m) file_data n) := by
      simp only [writeAllChunks, List.range_succ, List.foldl_append]
      rfl
    set W := writeAllChunks (geometry m) file_data first n img with hWdef
    have hplen : (chunkPadded (geometry m) file_data n).length = 4096 := by
      rw [chunkPadded_length]; rfl
    have hin : chunkTargetOffset (geometry m) first n +
        (chunkPadded (geometry m) file_data n).length ≤ W.len := by
      rw [hplen, ihlen, hoff n]; omega
    refine ⟨?_, ?_, ?_, ?_⟩
    · rw [hW, setSlice_len _ _ _ hin, ihlen]
    · intro q hq hq2
      rw [hW, setSlice_byteAt_lt _ _ _ _ (by rw [hoff n]; omega) (by rw [ihlen]; omega)]
      exact ihlow q hq hq2
    · intro i r hi hr
      by_cases hi2 : i < n
      · rw [hW, setSlice_byteAt_lt _ _ _ _ (by rw [hoff n]; omega)
          (by rw [ihlen]; omega)]
        exact ihmid i r hi2 hr
      · have hieq : i = n := by omega
        rw [hieq, hW, setSlice_byteAt_mid _ _ _ _ (by omega) (by rw [hoff n]; omega)
          (by rw [hoff n, hplen]; omega)]
        congr 1
        rw [hoff n]
        omega
    · intro q hq
      rw [hW, setSlice_byteAt_ge _ _ _ _ hin (by rw [hoff n, hplen]; omega)]
      exact ihhigh q (by omega)

/-- Number of clusters of a nonempty payload is at least 1 (32 MiB
geometry). -/
theorem clustersNeeded_pos (m : Nat) (file_size : Nat) (h : 0 < file_size) :
    1 ≤ clustersNeeded (geometry m) file_size := by
  simp only [clustersNeeded, geometry_bytes_per_cluster]
  omega

/-- What the allocation phase does for a nonempty payload: the first cluster
is the counter's value, the image is untouched, the counter advances by the
cluster count, and the FAT now holds the consecutive chain. -/
theorem allocChain_spec (m : Nat) (s : DiskState) (file_size : Nat) (hpos : 0 < file_size) :
    (allocChain (geometry m) s file_size).1 = s.next_free_cluster ∧
    (allocChain (geometry m) s file_size).2.disk_image = s.disk_image ∧
    (allocChain (geometry m) s file_size).2.next_free_cluster =
      s.next_free_cluster + clustersNeeded (geometry m) file_size ∧
    ∀ x, (allocChain (geometry m) s file_size).2.fat_table x =
      if s.next_free_cluster ≤ x ∧
          x < s.next_free_cluster + (clustersNeeded (geometry m) file_size - 1) then x + 1
      else if x = s.next_free_cluster + (clustersNeeded (geometry m) file_size - 1) then
        0x0FFFFFFF
      else s.fat_table x := by
  have hn1 : 1 ≤ clustersNeeded (geometry m) file_size := clustersNeeded_pos m file_size hpos
  simp only [allocChain, if_pos hpos, allocate_cluster]
  obtain ⟨ha, hb, hc⟩ := linkClusters_spec (clustersNeeded (geometry m) file_size - 1)
    { disk_image := s.disk_image
      fat_table := upd s.fat_table s.next_free_cluster 0x0FFFFFFF
      next_free_cluster := s.next_free_cluster + 1 }
    s.next_free_cluster rfl (upd_eq _ _ _)
  refine ⟨trivial, hb, by rw [ha]; omega, ?_⟩
  intro x
  rw [hc x]
  by_cases h1 : s.next_free_cluster ≤ x ∧
      x < s.next_free_cluster + (clustersNeeded (geometry m) file_size - 1)
  · rw [if_pos h1, if_pos h1]
  · rw [if_neg h1, if_neg h1]
    by_cases h2 : x = s.next_free_cluster + (clustersNeeded (geometry m) file_size - 1)
    · rw [if_pos h2, if_pos h2]
    · rw [if_neg h2, if_neg h2]
      show upd _ _ _ _ = _
      rw [upd_ne _ _ _ _ (by omega)]

/-- A scan that returns no slot saw no empty or deleted marker at any
stride-32 position, provided the fuel covers the whole buffer. -/
theorem scanSlots_none (l : List Nat) :
    ∀ (fuel i : Nat), l.length ≤ i + 32 * fuel → scanSlots l i fuel = none →
      ∀ j, i ≤ j → j < l.length → (j - i) % 32 = 0 →
        ¬(l.getD j 0 = 0x00 ∨ l.getD j 0 = 0xE5) := by
  intro fuel
  induction fuel with
  | zero =>
    intro i hfuel _ j hj1 hj2 _
    omega
  | succ fuel ih =>
    intro i hfuel hscan j hj1 hj2 hj3
    by_cases hi : i < l.length
    · simp only [scanSlots, if_pos hi] at hscan
      by_cases hm : l.getD i 0 = 0x00 ∨ l.getD i 0 = 0xE5
      · rw [if_pos hm] at hscan
        cases hscan
      · rw [if_neg hm] at hscan
        by_cases hji : j = i
        · subst hji
          exact hm
        · exact ih (i + 32) (by omega) hscan j (by omega) hj2 (by omega)
    · omega

/-- A scan that returns a slot returns the first stride-32 position carrying
an empty or deleted marker. -/
theorem scanSlots_some (l : List Nat) :
    ∀ (fuel i j : Nat), scanSlots l i fuel = some j →
      i ≤ j ∧ (j - i) % 32 = 0 ∧ j < l.length ∧
      (l.getD j 0 = 0x00 ∨ l.getD j 0 = 0xE5) ∧
      ∀ j2, i ≤ j2 → j2 < j → (j2 - i) % 32 = 0 →
        ¬(l.getD j2 0 = 0x00 ∨ l.getD j2 0 = 0xE5) := by
  intro fuel
  induction fuel with
  | zero =>
    intro i j h
    cases h
  | succ fuel ih =>
    intro i j h
    simp only [scanSlots] at h
    by_cases hi : i < l.length
    · rw [if_pos hi] at h
      by_cases hm : l.getD i 0 = 0x00 ∨ l.getD i 0 = 0xE5
      · rw [if_pos hm, Option.some.injEq] at h
        subst h
        exact ⟨le_refl _, by simp, hi, hm, fun j2 h1 h2 _ => absurd (lt_of_le_of_lt h1 h2)
          (lt_irrefl _)⟩
      · rw [if_neg hm] at h
        obtain ⟨a1, a2, a3, a4, a5⟩ := ih (i + 32) j h
        refine ⟨by omega, by omega, a3, a4, ?_⟩
        intro j2 h1 h2 h3
        by_cases hj2 : j2 = i
        · subst hj2
          exact hm
        · exact a5 j2 (by omega) h2 (by omega)
    · rw [if_neg hi] at h
      cases h

theorem insertEntry_length (dir_data entry : List Nat) (i : Nat)
    (hi : i + 32 ≤ dir_data.length) (he : entry.length = 32) :
    (insertEntry dir_data entry i).length = dir_data.length := by
  have h1 : (setSliceList dir_data i entry).length = dir_data.length :=
    setSliceList_length _ _ _ (by omega)
  simp only [insertEntry]
  split
  · rw [List.length_set, h1]
  · exact h1

theorem insertEntry_getD_entry (dir_data entry : List Nat) (i p : Nat)
    (hi : i + 32 ≤ dir_data.length) (he : entry.length = 32) (hp : p < 32) :
    (insertEntry dir_data entry i).getD (i + p) 0 = entry.getD p 0 := by
  have hmid : (setSliceList dir_data i entry).getD (i + p) 0 = entry.getD p 0 := by
    rw [setSliceList_getD_mid _ _ _ _ (by omega) (by omega) (by omega)]
    congr 1
    omega
  simp only [insertEntry]
  split
  · rw [List.getD_eq_getElem?_getD, List.getElem?_set_ne (by omega),
      ← List.getD_eq_getElem?_getD]
    exact hmid
  · exact hmid

theorem setSliceList_length_eq (l : List Nat) (start : Nat) (data : List Nat) :
    (setSliceList l start data).length =
      min start l.length + data.length + (l.length - min (start + data.length) l.length) := by
  simp only [setSliceList, List.length_append, List.length_take, List.length_drop]
  omega

theorem dirEntryBytes_length (fat_filename : List Nat) (tv dv fc fs : Nat)
    (hname : fat_filename.length = 11) :
    (dirEntryBytes fat_filename tv dv fc fs).length = 32 := by
  simp only [dirEntryBytes, packInto, setSliceList_length_eq, List.length_set,
    leBytes_length, List.length_replicate, hname]
  omega

/-- `add_file_to_directory` fails exactly when the slot scan fails. -/
theorem add_none_iff (g : Geometry) (s : DiskState) (fname fdata : List Nat) (dc : Nat)
    (now : Now) :
    add_file_to_directory g s fname fdata dc now = none ↔
      scanSlots (addDirData g s fdata dc) 0 (addDirData g s fdata dc).length = none := by
  simp only [add_file_to_directory]
  cases h : scanSlots (addDirData g s fdata dc) 0 (addDirData g s fdata dc).length <;> simp [h]

/-- The state a successful `add_file_to_directory` returns, in terms of the
scan's slot. -/
theorem add_eq_of_scan (g : Geometry) (s : DiskState) (fname fdata : List Nat) (dc : Nat)
    (now : Now) (j : Nat)
    (h : scanSlots (addDirData g s fdata dc) 0 (addDirData g s fdata dc).length = some j) :
    add_file_to_directory g s fname fdata dc now =
      some { (allocChain g s fdata.length).2 with
              disk_image := ByteBuf.setSlice (addImg g s fdata)
                (cluster_to_sector g dc * g.sector_size)
                (insertEntry (addDirData g s fdata dc)
                  (dirEntryBytes fname (timeVal now) (dateVal now)
                    (allocChain g s fdata.length).1 fdata.length) j) } := by
  simp only [add_file_to_directory]
  rw [h]

/-- A successful add means the slot scan found a slot. -/
theorem add_isSome_scan (g : Geometry) (s : DiskState) (fname fdata : List Nat) (dc : Nat)
    (now : Now) (h : (add_file_to_directory g s fname fdata dc now).isSome = true) :
    ∃ j, scanSlots (addDirData g s fdata dc) 0 (addDirData g s fdata dc).length = some j := by
  simp only [add_file_to_directory] at h
  cases hs : scanSlots (addDirData g s fdata dc) 0 (addDirData g s fdata dc).length with
  | none => rw [hs] at h; simp at h
  | some j => exact ⟨j, hs ▸ rfl⟩

theorem getSlice_congr (b1 b2 : ByteBuf) (start stop : Nat) (hl : b1.len = b2.len)
    (h : ∀ p, start ≤ p → p < stop → b1.byteAt p = b2.byteAt p) :
    b1.getSlice start stop = b2.getSlice start stop := by
  unfold ByteBuf.getSlice
  rw [hl]
  apply List.map_congr_left
  intro a ha
  rw [List.mem_range] at ha
  apply h <;> omega

/-- For a nonempty payload, the image of the data-placement phase is the
chunk loop run over the pre-state image from the counter's cluster. -/
theorem addImg_eq (m : Nat) (s : DiskState) (fdata : List Nat) (hS : 0 < fdata.length) :
    addImg (geometry m) s fdata =
      writeAllChunks (geometry m) fdata s.next_free_cluster
        (clustersNeeded (geometry m) fdata.length) s.disk_image := by
  obtain ⟨h1, h2, _, _⟩ := allocChain_spec m s fdata.length hS
  unfold addImg
  rw [h1, h2]

/-- With the chain in capacity and the directory cluster strictly below the
allocator's counter, the directory bytes the method reads back after the
data phase are the pre-state's directory bytes. -/
theorem addDirData_eq_pre (m : Nat) (s : DiskState) (fdata : List Nat) (dc : Nat)
    (hdc2 : 2 ≤ dc) (hdcf : dc < s.next_free_cluster)
    (hcap : chunkTargetOffset (geometry m) s.next_free_cluster 0 +
      clustersNeeded (geometry m) fdata.length * 4096 ≤ s.disk_image.len) :
    addDirData (geometry m) s fdata dc =
      s.disk_image.getSlice (cluster_to_sector (geometry m) dc * 512)
        (cluster_to_sector (geometry m) dc * 512 + 4096) := by
  have hfirst : 3 ≤ s.next_free_cluster := by omega
  have hdlt : cluster_to_sector (geometry m) dc * 512 + 4096 ≤
      chunkTargetOffset (geometry m) s.next_free_cluster 0 := by
    simp only [cluster_to_sector_geometry, chunkTargetOffset, cluster_to_sector_geometry,
      geometry_sector_size]
    have h1 : dc - 2 + 1 ≤ s.next_free_cluster + 0 - 2 := by omega
    omega
  by_cases hS : 0 < fdata.length
  · obtain ⟨hlen, hlow, _, _⟩ := writeAllChunks_spec m fdata s.next_free_cluster
      (clustersNeeded (geometry m) fdata.length) s.disk_image (by omega) hcap
    unfold addDirData
    rw [addImg_eq m s fdata hS]
    show ByteBuf.getSlice _ (cluster_to_sector (geometry m) dc * 512)
        (cluster_to_sector (geometry m) dc * 512 + 4096) = _
    apply getSlice_congr _ _ _ _ hlen
    intro p hp1 hp2
    exact hlow p (by omega) (by omega)
  · have hS0 : fdata.length = 0 := by omega
    unfold addDirData addImg allocChain
    rw [hS0]
    show ByteBuf.getSlice (writeAllChunks (geometry m) fdata (0, s).1
        (clustersNeeded (geometry m) 0) (0, s).2.disk_image) _ _ = _
    have hn0 : clustersNeeded (geometry m) 0 = 0 := by
      simp only [clustersNeeded, geometry_bytes_per_cluster]
    rw [hn0]
    rfl

/-- The directory cluster sits strictly below the data region of a chain
starting at the counter, when the directory cluster is below the counter. -/
theorem dir_below_data (m dc first : Nat) (hdc2 : 2 ≤ dc) (hdcf : dc < first) :
    cluster_to_sector (geometry m) dc * 512 + 4096 ≤ chunkTargetOffset (geometry m) first 0 := by
  simp only [cluster_to_sector_geometry, chunkTargetOffset, geometry_sector_size]
  have h1 : dc - 2 + 1 ≤ first + 0 - 2 := by omega
  omega

/-- Master description of a successful `add_file_to_directory` of a nonempty
payload: the counter advance, the FAT chain, the image length, the frame
below the directory cluster and above the data region, the directory-cluster
content and the data-cluster content. -/
theorem add_spec (m : Nat) (s : DiskState) (fname fdata : List Nat) (dc : Nat) (now : Now)
    (j : Nat)
    (hname : fname.length = 11)
    (hS : 0 < fdata.length)
    (hdc2 : 2 ≤ dc)
    (hdcf : dc < s.next_free_cluster)
    (hcap : chunkTargetOffset (geometry m) s.next_free_cluster 0 +
      clustersNeeded (geometry m) fdata.length * 4096 ≤ s.disk_image.len)
    (hscan : scanSlots (addDirData (geometry m) s fdata dc) 0
      (addDirData (geometry m) s fdata dc).length = some j) :
    (add_file_to_directory (geometry m) s fname fdata dc now).isSome = true ∧
    ((add_file_to_directory (geometry m) s fname fdata dc now).getD s).next_free_cluster =
      s.next_free_cluster + clustersNeeded (geometry m) fdata.length ∧
    (∀ x, ((add_file_to_directory (geometry m) s fname fdata dc now).getD s).fat_table x =
      if s.next_free_cluster ≤ x ∧
          x < s.next_free_cluster + (clustersNeeded (geometry m) fdata.length - 1) then x + 1
      else if x = s.next_free_cluster + (clustersNeeded (geometry m) fdata.length - 1) then
        0x0FFFFFFF
      else s.fat_table x) ∧
    ((add_file_to_directory (geometry m) s fname fdata dc now).getD s).disk_image.len =
      s.disk_image.len ∧
    (∀ q, q < cluster_to_sector (geometry m) dc * 512 → q < s.disk_image.len →
      ((add_file_to_directory (geometry m) s fname fdata dc now).getD s).disk_image.byteAt q =
        s.disk_image.byteAt q) ∧
    (∀ p, p < 4096 →
      ((add_file_to_directory (geometry m) s fname fdata dc now).getD s).disk_image.byteAt
          (cluster_to_sector (geometry m) dc * 512 + p) =
        (insertEntry (addDirData (geometry m) s fdata dc)
          (dirEntryBytes fname (timeVal now) (dateVal now) s.next_free_cluster fdata.length)
          j).getD p 0) ∧
    (∀ i r2, i < clustersNeeded (geometry m) fdata.length → r2 < 4096 →
      ((add_file_to_directory (geometry m) s fname fdata dc now).getD s).disk_image.byteAt
          (chunkTargetOffset (geometry m) s.next_free_cluster 0 + (i * 4096 + r2)) =
        (chunkPadded (geometry m) fdata i).getD r2 0) ∧
    (∀ q, chunkTargetOffset (geometry m) s.next_free_cluster 0 +
        clustersNeeded (geometry m) fdata.length * 4096 ≤ q →
      ((add_file_to_directory (geometry m) s fname fdata dc now).getD s).disk_image.byteAt q =
        s.disk_image.byteAt q) := by
  obtain ⟨ha1, ha2, ha3, ha4⟩ := allocChain_spec m s fdata.length hS
  have himg := addImg_eq m s fdata hS
  obtain ⟨hwlen, hwlow, hwmid, hwhigh⟩ := writeAllChunks_spec m fdata s.next_free_cluster
    (clustersNeeded (geometry m) fdata.length) s.disk_image (by omega) hcap
  have hdlt := dir_below_data m dc s.next_free_cluster hdc2 hdcf
  have hdir_len : cluster_to_sector (geometry m) dc * 512 + 4096 ≤ s.disk_image.len := by
    omega
  have hpre := addDirData_eq_pre m s fdata dc hdc2 hdcf hcap
  have hddlen : (addDirData (geometry m) s fdata dc).length = 4096 := by
    rw [hpre, getSlice_length _ _ _ (by omega) (by omega)]
    omega
  obtain ⟨-, hj32, hjlt, -, -⟩ := scanSlots_some (addDirData (geometry m) s fdata dc)
    (addDirData (geometry m) s fdata dc).length 0 j hscan
  rw [hddlen] at hjlt
  have hj32' : j % 32 = 0 := by simpa using hj32
  have hjle : j + 32 ≤ 4096 := by omega
  have hentrylen : (dirEntryBytes fname (timeVal now) (dateVal now)
      (allocChain (geometry m) s fdata.length).1 fdata.length).length = 32 :=
    dirEntryBytes_length _ _ _ _ _ hname
  have hd2len : (insertEntry (addDirData (geometry m) s fdata dc)
      (dirEntryBytes fname (timeVal now) (dateVal now)
        (allocChain (geometry m) s fdata.length).1 fdata.length) j).length = 4096 := by
    rw [insertEntry_length _ _ _ (by omega) hentrylen, hddlen]
  have himglen : (addImg (geometry m) s fdata).len = s.disk_image.len := by
    rw [himg, hwlen]
  have hd2len' : (insertEntry (addDirData (geometry m) s fdata dc)
      (dirEntryBytes fname (timeVal now) (dateVal now) s.next_free_cluster fdata.length)
      j).length = 4096 := by
    rw [← ha1]
    exact hd2len
  have hr : (add_file_to_directory (geometry m) s fname fdata dc now).getD s =
      { disk_image := ByteBuf.setSlice (addImg (geometry m) s fdata)
          (cluster_to_sector (geometry m) dc * 512)
          (insertEntry (addDirData (geometry m) s fdata dc)
            (dirEntryBytes fname (timeVal now) (dateVal now) s.next_free_cluster fdata.length)
            j)
        fat_table := (allocChain (geometry m) s fdata.length).2.fat_table
        next_free_cluster := (allocChain (geometry m) s fdata.length).2.next_free_cluster } := by
    rw [add_eq_of_scan (geometry m) s fname fdata dc now j hscan, Option.getD_some, ha1]
    rfl
  have hsetlen : cluster_to_sector (geometry m) dc * 512 +
      (insertEntry (addDirData (geometry m) s fdata dc)
        (dirEntryBytes fname (timeVal now) (dateVal now) s.next_free_cluster fdata.length)
        j).length ≤ (addImg (geometry m) s fdata).len := by
    rw [ha1] at hd2len
    rw [hd2len, himglen]
    omega
  refine ⟨?_, ?_, ?_, ?_, ?_, ?_, ?_, ?_⟩
  · rw [add_eq_of_scan (geometry m) s fname fdata dc now j hscan]
    rfl
  · rw [hr]
    exact ha3
  · rw [hr]
    exact ha4
  · rw [hr]
    show (ByteBuf.setSlice _ _ _).len = _
    rw [setSlice_len _ _ _ hsetlen, himglen]
  · intro q hq1 hq2
    rw [hr]
    show (ByteBuf.setSlice _ _ _).byteAt q = _
    rw [setSlice_byteAt_lt _ _ _ _ hq1 (by omega : q < (addImg (geometry m) s fdata).len)]
    rw [himg]
    exact hwlow q (by omega) hq2
  · intro p hp
    rw [hr]
    show (ByteBuf.setSlice _ _ _).byteAt _ = _
    rw [setSlice_byteAt_mid]
    · rw [Nat.add_sub_cancel_left]
    · omega
    · omega
    · rw [hd2len']
      omega
  · intro i r2 hi hr2
    rw [hr]
    show (ByteBuf.setSlice _ _ _).byteAt _ = _
    rw [setSlice_byteAt_ge]
    · rw [himg]
      exact hwmid i r2 hi hr2
    · rw [hd2len']
      omega
    · rw [hd2len']
      omega
  · intro q hq
    rw [hr]
    show (ByteBuf.setSlice _ _ _).byteAt q = _
    rw [setSlice_byteAt_ge]
    · rw [himg]
      exact hwhigh q hq
    · rw [hd2len']
      omega
    · rw [hd2len']
      omega

end BuildDisk

namespace CreateDiskFixed

/-- Module constant `DISK_SIZE_MB` (create_disk_fixed.py line 12). -/
def DISK_SIZE_MB : Nat := 32

/-- Module constant `BYTES_PER_SECTOR` (line 13). -/
def BYTES_PER_SECTOR : Nat := 512

/-- Module constant `SECTORS_PER_CLUSTER` (line 14). -/
def SECTORS_PER_CLUSTER : Nat := 8

/-- Module constant `RESERVED_SECTORS` (line 15). -/
def RESERVED_SECTORS : Nat := 32

/-- Module constant `NUM_FATS` (line 16). -/
def NUM_FATS : Nat := 2

/-- Module constant `BYTES_PER_CLUSTER` (line 19). -/
def BYTES_PER_CLUSTER : Nat := SECTORS_PER_CLUSTER * BYTES_PER_SECTOR

/-- The hardcoded FAT size of the fixed variant: 160 sectors
(lines 55 and 255). -/
def fat_size : Nat := 160

/-- `total_sectors` as computed at lines 44 and 256. -/
def total_sectors : Nat := DISK_SIZE_MB * 1024 * 1024 / BYTES_PER_SECTOR

/-- `data_start_sector` as computed at line 258. -/
def data_start_sector : Nat := RESERVED_SECTORS + NUM_FATS * fat_size

/-- Claim-side count of addressable data clusters of the fixed variant. -/
def dataClustersFixed : Nat := (total_sectors - data_start_sector) / SECTORS_PER_CLUSTER

/-- `create_boot_sector` of the fixed variant (lines 21-79), field by field
in program order. -/
def create_boot_sector : List Nat :=
  let b := List.replicate 512 0
  let b := setSliceList b 0 [0xEB, 0x58, 0x90]
  let b := setSliceList b 3 [0x4E, 0x55, 0x4D, 0x4F, 0x53, 0x31, 0x2E, 0x30]
  let b := packInto b 11 2 BYTES_PER_SECTOR
  let b := packInto b 13 1 SECTORS_PER_CLUSTER
  let b := packInto b 14 2 RESERVED_SECTORS
  let b := packInto b 16 1 NUM_FATS
  let b := packInto b 17 2 0
  let b := packInto b 19 2 0
  let b := packInto b 21 1 0xF8
  let b := packInto b 22 2 0
  let b := packInto b 24 2 63
  let b := packInto b 26 2 16
  let b := packInto b 28 4 0
  let b := packInto b 32 4 total_sectors
  let b := packInto b 36 4 fat_size
  let b := packInto b 40 2 0
  let b := packInto b 42 2 0
  let b := packInto b 44 4 2
  let b := packInto b 48 2 1
  let b := packInto b 50 2 6
  let b := setSliceList b 52 (List.replicate 12 0)
  let b := packInto b 64 1 0x80
  let b := packInto b 65 1 0
  let b := packInto b 66 1 0x29
  let b := packInto b 67 4 0x12345678
  let b := setSliceList b 71 [0x4E, 0x55, 0x4D, 0x4F, 0x53, 0x20, 0x44, 0x49, 0x53, 0x4B, 0x20]
  let b := setSliceList b 82 [0x46, 0x41, 0x54, 0x33, 0x32, 0x20, 0x20, 0x20]
  setSliceList b 510 [0x55, 0xAA]

/-- `create_fsinfo` of the fixed variant (lines 81-93). -/
def create_fsinfo : List Nat :=
  let f := List.replicate 512 0
  let f := packInto f 0 4 0x41615252
  let f := packInto f 484 4 0x61417272
  let f := packInto f 488 4 0xFFFFFFFF
  let f := packInto f 492 4 2
  packInto f 508 4 0xAA550000

/-- The ELF chain-writing loop of `create_fat` (lines 116-128): entry 6+i
points to the next cluster, the last entry is end-of-chain. -/
def fatChainWrites (fat : List Nat) (clusters_needed : Nat) : List Nat :=
  (List.range clusters_needed).foldl
    (fun f i =>
      if i = clusters_needed - 1 then packInto f ((6 + i) * 4) 4 0x0FFFFFFF
      else packInto f ((6 + i) * 4) 4 (6 + i + 1))
    fat

/-- `create_fat` (lines 95-130): reserved entries 0-1, end-of-chain entries
for the fixed directory clusters 2-5, and the ELF chain at clusters 6+.
The first argument is unused, as in the source. -/
def create_fat (total_sectors_arg fat_size_arg file_size : Nat) : List Nat :=
  let fat := List.replicate (fat_size_arg * BYTES_PER_SECTOR) 0
  let fat := packInto fat 0 4 0x0FFFFFF8
  let fat := packInto fat 4 4 0x0FFFFFFF
  let fat := packInto fat 8 4 0x0FFFFFFF
  let fat := packInto fat 12 4 0x0FFFFFFF
  let fat := packInto fat 16 4 0x0FFFFFFF
  let fat := packInto fat 20 4 0x0FFFFFFF
  if 0 < file_size then
    fatChainWrites fat ((file_size + BYTES_PER_CLUSTER - 1) / BYTES_PER_CLUSTER)
  else fat

/-- `create_directory_entry` (lines 132-169): fixed timestamp bytes, the
name space-padded to 11 bytes. -/
def create_directory_entry (name : List Nat) (attr cluster size : Nat) : List Nat :=
  let entry := List.replicate 32 0
  let entry := setSliceList entry 0 ((name ++ List.replicate (11 - name.length) 0x20).take 11)
  let entry := entry.set 11 attr
  let entry := entry.set 12 0
  let entry := entry.set 13 0
  let entry := setSliceList entry 14 [0x00, 0x00]
  let entry := setSliceList entry 16 [0x21, 0x00]
  let entry := setSliceList entry 18 [0x21, 0x00]
  let entry := packInto entry 20 2 ((cluster >>> 16) &&& 0xFFFF)
  let entry := setSliceList entry 22 [0x00, 0x00]
  let entry := setSliceList entry 24 [0x21, 0x00]
  let entry := packInto entry 26 2 (cluster &&& 0xFFFF)
  packInto entry 28 4 size

/-- `create_root_directory` (lines 171-192). -/
def create_root_directory : List Nat :=
  let c := List.replicate BYTES_PER_CLUSTER 0
  let c := setSliceList c 0
    (create_directory_entry [0x2E, 32, 32, 32, 32, 32, 32, 32, 32, 32, 32] 0x10 2 0)
  let c := setSliceList c 32
    (create_directory_entry [0x2E, 0x2E, 32, 32, 32, 32, 32, 32, 32, 32, 32] 0x10 0 0)
  let c := setSliceList c 64
    (create_directory_entry [73, 78, 73, 84, 32, 32, 32, 32, 32, 32, 32] 0x10 3 0)
  let c := setSliceList c 96
    (create_directory_entry [66, 73, 78, 32, 32, 32, 32, 32, 32, 32, 32] 0x10 4 0)
  setSliceList c 128
    (create_directory_entry [82, 85, 78, 32, 32, 32, 32, 32, 32, 32, 32] 0x10 5 0)

/-- `create_init_directory` (lines 194-212). -/
def create_init_directory (elf_size : Nat) : List Nat :=
  let c := List.replicate BYTES_PER_CLUSTER 0
  let c := setSliceList c 0
    (create_directory_entry [0x2E, 32, 32, 32, 32, 32, 32, 32, 32, 32, 32] 0x10 3 0)
  let c := setSliceList c 32
    (create_directory_entry [0x2E, 0x2E, 32, 32, 32, 32, 32, 32, 32, 32, 32] 0x10 2 0)
  if 0 < elf_size then
    setSliceList c 64
      (create_directory_entry [83, 72, 69, 76, 76, 32, 32, 32, 32, 32, 32] 0x20 6 elf_size)
  else c

/-- `create_empty_directory` (lines 214-226). -/
def create_empty_directory (cluster_num : Nat) : List Nat :=
  let c := List.replicate BYTES_PER_CLUSTER 0
  let c := setSliceList c 0
    (create_directory_entry [0x2E, 32, 32, 32, 32, 32, 32, 32, 32, 32, 32] 0x10 cluster_num 0)
  setSliceList c 32
    (create_directory_entry [0x2E, 0x2E, 32, 32, 32, 32, 32, 32, 32, 32, 32] 0x10 2 0)

/-- The reserved-area loop of main (lines 277-282): sectors 2..31, with the
boot sector repeated at sector 6 and zeros elsewhere. -/
def reservedArea : List Nat :=
  catMap (fun i => if i = 6 then create_boot_sector else List.replicate BYTES_PER_SECTOR 0)
    (List.range' 2 30)

/-- The ELF data segment of main (lines 307-314): the payload zero-padded to
a whole number of clusters (nothing when no ELF was given). -/
def elfSegment (elf : Option (List Nat)) : List Nat :=
  match elf with
  | none => []
  | some d =>
    d ++ List.replicate
      ((d.length + BYTES_PER_CLUSTER - 1) / BYTES_PER_CLUSTER * BYTES_PER_CLUSTER - d.length) 0

/-- Everything main writes before the trailing zero fill (lines 266-314), in
write order. -/
def mainPrefix (elf : Option (List Nat)) : List Nat :=
  create_boot_sector ++ create_fsinfo ++ reservedArea ++
    create_fat total_sectors fat_size ((elf.map List.length).getD 0) ++
    create_fat total_sectors fat_size ((elf.map List.length).getD 0) ++
    create_root_directory ++ create_init_directory ((elf.map List.length).getD 0) ++
    create_empty_directory 4 ++ create_empty_directory 5 ++ elfSegment elf

/-- The complete output file of main (lines 266-330): the written data
zero-filled to the target size (the fill loop writes nothing when the data
already reaches it). -/
def mainImage (elf : Option (List Nat)) : List Nat :=
  mainPrefix elf ++
    List.replicate (total_sectors * BYTES_PER_SECTOR - (mainPrefix elf).length) 0

/-- Outcome of the ELF-argument handling of main. -/
inductive ElfOutcome where
  | proceed (elf : Option (List Nat)) : ElfOutcome
  | exitError : ElfOutcome
deriving DecidableEq

/-- The ELF-argument handling of main (lines 234-250): no argument proceeds
without an ELF, an argument naming an existing file loads it, an argument
naming a missing path prints an error and exits with status 1 before any
image is produced. The outer Option is the argument, the inner Option the
filesystem lookup. -/
def resolveElf (elfArg : Option (Option (List Nat))) : ElfOutcome :=
  match elfArg with
  | none => ElfOutcome.proceed none
  | some (some d) => ElfOutcome.proceed (some d)
  | some none => ElfOutcome.exitError

/-- The 32-bit little-endian FAT entry at index c of a serialized FAT. -/
def fatEntryAt (fat : List Nat) (c : Nat) : Nat :=
  fat.getD (4 * c) 0 + 256 * fat.getD (4 * c + 1) 0 + 65536 * fat.getD (4 * c + 2) 0 +
    16777216 * fat.getD (4 * c + 3) 0

end CreateDiskFixed

theorem setSliceList_append_right (l1 l2 data : List Nat) (k : Nat) :
    setSliceList (l1 ++ l2) (l1.length + k) data = l1 ++ setSliceList l2 k data := by
  unfold setSliceList
  have h1 : min (l1.length + k) (l1 ++ l2).length = l1.length + min k l2.length := by
    simp only [List.length_append]
    omega
  have h2 : min (l1.length + k + data.length) (l1 ++ l2).length =
      l1.length + min (k + data.length) l2.length := by
    simp only [List.length_append]
    omega
  rw [h1, h2, List.take_append, List.drop_append]
  simp [List.append_assoc]

theorem set_append_right_len (l1 l2 : List Nat) (k : Nat) (v : Nat) :
    (l1 ++ l2).set (l1.length + k) v = l1 ++ l2.set k v := by
  rw [List.set_append_right _ _ (Nat.le_add_right _ _)]
  congr 2
  omega

/-- The directory entry of build_disk.py as an explicit byte list: the
11-byte name, the archive attribute, two zero bytes, then the little-endian
time/date words, the split cluster halves and the 32-bit size. -/
theorem BuildDisk.dirEntryBytes_eq (fat_filename : List Nat) (tv dv fc fs : Nat)
    (hname : fat_filename.length = 11) :
    BuildDisk.dirEntryBytes fat_filename tv dv fc fs =
      fat_filename ++
        [0x20, 0, 0, tv % 256, tv / 256 % 256, dv % 256, dv / 256 % 256, dv % 256,
         dv / 256 % 256, (fc >>> 16) % 256, (fc >>> 16) / 256 % 256, tv % 256, tv / 256 % 256,
         dv % 256, dv / 256 % 256, (fc &&& 0xFFFF) % 256, (fc &&& 0xFFFF) / 256 % 256,
         fs % 256, fs / 256 % 256, fs / 256 / 256 % 256, fs / 256 / 256 / 256 % 256] := by
  have h0 : setSliceList (List.replicate 32 0) 0 fat_filename =
      fat_filename ++ [0, 0, 0, 0, 0, 0, 0, 0, 0, 0, 0, 0, 0, 0, 0, 0, 0, 0, 0, 0, 0] := by
    unfold setSliceList
    rw [hname]
    rfl
  have e2 : (fat_filename ++
        ([0, 0, 0, 0, 0, 0, 0, 0, 0, 0, 0, 0, 0, 0, 0, 0, 0, 0, 0, 0, 0] : List Nat)).set
      11 0x20 =
      fat_filename ++ [0x20, 0, 0, 0, 0, 0, 0, 0, 0, 0, 0, 0, 0, 0, 0, 0, 0, 0, 0, 0, 0] := by
    rw [show (11 : Nat) = fat_filename.length + 0 from by rw [hname], set_append_right_len]
    rfl
  have e3 : packInto (fat_filename ++
        ([0x20, 0, 0, 0, 0, 0, 0, 0, 0, 0, 0, 0, 0, 0, 0, 0, 0, 0, 0, 0, 0] : List Nat))
      14 2 tv =
      fat_filename ++ [0x20, 0, 0, tv % 256, tv / 256 % 256,
        0, 0, 0, 0, 0, 0, 0, 0, 0, 0, 0, 0, 0, 0, 0, 0] := by
    unfold packInto
    rw [show (14 : Nat) = fat_filename.length + 3 from by rw [hname], setSliceList_append_right]
    rfl
  have e4 : packInto (fat_filename ++
        ([0x20, 0, 0, tv % 256, tv / 256 % 256,
          0, 0, 0, 0, 0, 0, 0, 0, 0, 0, 0, 0, 0, 0, 0, 0] : List Nat)) 16 2 dv =
      fat_filename ++ [0x20, 0, 0, tv % 256, tv / 256 % 256, dv % 256, dv / 256 % 256,
        0, 0, 0, 0, 0, 0, 0, 0, 0, 0, 0, 0, 0, 0] := by
    unfold packInto
    rw [show (16 : Nat) = fat_filename.length + 5 from by rw [hname], setSliceList_append_right]
    rfl
  have e5 : packInto (fat_filename ++
        ([0x20, 0, 0, tv % 256, tv / 256 % 256, dv % 256, dv / 256 % 256,
          0, 0, 0, 0, 0, 0, 0, 0, 0, 0, 0, 0, 0, 0] : List Nat)) 18 2 dv =
      fat_filename ++ [0x20, 0, 0, tv % 256, tv / 256 % 256, dv % 256, dv / 256 % 256,
        dv % 256, dv / 256 % 256, 0, 0, 0, 0, 0, 0, 0, 0, 0, 0, 0, 0] := by
    unfold packInto
    rw [show (18 : Nat) = fat_filename.length + 7 from by rw [hname], setSliceList_append_right]
    rfl
  have e6 : packInto (fat_filename ++
        ([0x20, 0, 0, tv % 256, tv / 256 % 256, dv % 256, dv / 256 % 256,
          dv % 256, dv / 256 % 256, 0, 0, 0, 0, 0, 0, 0, 0, 0, 0, 0, 0] : List Nat))
      20 2 (fc >>> 16) =
      fat_filename ++ [0x20, 0, 0, tv % 256, tv / 256 % 256, dv % 256, dv / 256 % 256,
        dv % 256, dv / 256 % 256, (fc >>> 16) % 256, (fc >>> 16) / 256 % 256,
        0, 0, 0, 0, 0, 0, 0, 0, 0, 0] := by
    unfold packInto
    rw [show (20 : Nat) = fat_filename.length + 9 from by rw [hname], setSliceList_append_right]
    rfl
  have e7 : packInto (fat_filename ++
        ([0x20, 0, 0, tv % 256, tv / 256 % 256, dv % 256, dv / 256 % 256,
          dv % 256, dv / 256 % 256, (fc >>> 16) % 256, (fc >>> 16) / 256 % 256,
          0, 0, 0, 0, 0, 0, 0, 0, 0, 0] : List Nat)) 22 2 tv =
      fat_filename ++ [0x20, 0, 0, tv % 256, tv / 256 % 256, dv % 256, dv / 256 % 256,
        dv % 256, dv / 256 % 256, (fc >>> 16) % 256, (fc >>> 16) / 256 % 256,
        tv % 256, tv / 256 % 256, 0, 0, 0, 0, 0, 0, 0, 0] := by
    unfold packInto
    rw [show (22 : Nat) = fat_filename.length + 11 from by rw [hname], setSliceList_append_right]
    rfl
  have e8 : packInto (fat_filename ++
        ([0x20, 0, 0, tv % 256, tv / 256 % 256, dv % 256, dv / 256 % 256,
          dv % 256, dv / 256 % 256, (fc >>> 16) % 256, (fc >>> 16) / 256 % 256,
          tv % 256, tv / 256 % 256, 0, 0, 0, 0, 0, 0, 0, 0] : List Nat)) 24 2 dv =
      fat_filename ++ [0x20, 0, 0, tv % 256, tv / 256 % 256, dv % 256, dv / 256 % 256,
        dv % 256, dv / 256 % 256, (fc >>> 16) % 256, (fc >>> 16) / 256 % 256,
        tv % 256, tv / 256 % 256, dv % 256, dv / 256 % 256, 0, 0, 0, 0, 0, 0] := by
    unfold packInto
    rw [show (24 : Nat) = fat_filename.length + 13 from by rw [hname], setSliceList_append_right]
    rfl
  have e9 : packInto (fat_filename ++
        ([0x20, 0, 0, tv % 256, tv / 256 % 256, dv % 256, dv / 256 % 256,
          dv % 256, dv / 256 % 256, (fc >>> 16) % 256, (fc >>> 16) / 256 % 256,
          tv % 256, tv / 256 % 256, dv % 256, dv / 256 % 256, 0, 0, 0, 0, 0, 0] : List Nat))
      26 2 (fc &&& 0xFFFF) =
      fat_filename ++ [0x20, 0, 0, tv % 256, tv / 256 % 256, dv % 256, dv / 256 % 256,
        dv % 256, dv / 256 % 256, (fc >>> 16) % 256, (fc >>> 16) / 256 % 256,
        tv % 256, tv / 256 % 256, dv % 256, dv / 256 % 256, (fc &&& 0xFFFF) % 256,
        (fc &&& 0xFFFF) / 256 % 256, 0, 0, 0, 0] := by
    unfold packInto
    rw [show (26 : Nat) = fat_filename.length + 15 from by rw [hname], setSliceList_append_right]
    rfl
  have e10 : packInto (fat_filename ++
        ([0x20, 0, 0, tv % 256, tv / 256 % 256, dv % 256, dv / 256 % 256,
          dv % 256, dv / 256 % 256, (fc >>> 16) % 256, (fc >>> 16) / 256 % 256,
          tv % 256, tv / 256 % 256, dv % 256, dv / 256 % 256, (fc &&& 0xFFFF) % 256,
          (fc &&& 0xFFFF) / 256 % 256, 0, 0, 0, 0] : List Nat)) 28 4 fs =
      fat_filename ++ [0x20, 0, 0, tv % 256, tv / 256 % 256, dv % 256, dv / 256 % 256,
        dv % 256, dv / 256 % 256, (fc >>> 16) % 256, (fc >>> 16) / 256 % 256,
        tv % 256, tv / 256 % 256, dv % 256, dv / 256 % 256, (fc &&& 0xFFFF) % 256,
        (fc &&& 0xFFFF) / 256 % 256, fs % 256, fs / 256 % 256, fs / 256 / 256 % 256,
        fs / 256 / 256 / 256 % 256] := by
    unfold packInto
    rw [show (28 : Nat) = fat_filename.length + 17 from by rw [hname], setSliceList_append_right]
    rfl
  show packInto (packInto (packInto (packInto (packInto (packInto (packInto (packInto
    ((setSliceList (List.replicate 32 0) 0 fat_filename).set 11 0x20)
    14 2 tv) 16 2 dv) 18 2 dv) 20 2 (fc >>> 16)) 22 2 tv) 24 2 dv) 26 2 (fc &&& 0xFFFF))
    28 4 fs = _
  rw [h0, e2, e3, e4, e5, e6, e7, e8, e9, e10]

/-- Reading any slice of a constant-zero buffer yields zeros. -/
theorem getSlice_zero (len start stop : Nat) :
    ByteBuf.getSlice { len := len, byteAt := fun _ => 0 } start stop =
      List.replicate (min stop len - min start len) 0 := by
  unfold ByteBuf.getSlice
  apply List.ext_getElem
  · simp
  · intro r h1 h2
    simp

/-- The allocation counter of a fresh builder state. -/
theorem BuildDisk.initState_next (g : BuildDisk.Geometry) :
    (BuildDisk.initState g).next_free_cluster = 3 := rfl

/-- The image length of a fresh builder state. -/
theorem BuildDisk.initState_len (g : BuildDisk.Geometry) :
    (BuildDisk.initState g).disk_image.len = g.size_bytes := rfl

/-- Any slice of a fresh builder state's image is all zero. -/
theorem BuildDisk.initState_getSlice (g : BuildDisk.Geometry) (a b : Nat) :
    (BuildDisk.initState g).disk_image.getSlice a b =
      List.replicate (min b g.size_bytes - min a g.size_bytes) 0 :=
  getSlice_zero g.size_bytes a b

/-- The scan finds a marked slot right away when its first probe carries a
marker. -/
theorem BuildDisk.scanSlots_found (l : List Nat) (i fuel : Nat) (hi : i < l.length)
    (hm : l.getD i 0 = 0x00 ∨ l.getD i 0 = 0xE5) (hf : 0 < fuel) :
    BuildDisk.scanSlots l i fuel = some i := by
  cases fuel with
  | zero => omega
  | succ fuel => simp only [BuildDisk.scanSlots, if_pos hi, if_pos hm]

/-- On a fresh all-zero builder state, the directory bytes the add method
reads for the root cluster are all zero. -/
theorem BuildDisk.initState_dirData (m : Nat) (fdata : List Nat) (hm : 1 ≤ m)
    (hcap : BuildDisk.chunkTargetOffset (BuildDisk.geometry m) 3 0 +
      BuildDisk.clustersNeeded (BuildDisk.geometry m) fdata.length * 4096 ≤ m * 1024 * 1024) :
    BuildDisk.addDirData (BuildDisk.geometry m) (BuildDisk.initState (BuildDisk.geometry m))
      fdata 2 = List.replicate 4096 0 := by
  have hdcf : 2 < (BuildDisk.initState (BuildDisk.geometry m)).next_free_cluster := by
    rw [BuildDisk.initState_next]
    omega
  have hcap2 : BuildDisk.chunkTargetOffset (BuildDisk.geometry m)
      (BuildDisk.initState (BuildDisk.geometry m)).next_free_cluster 0 +
      BuildDisk.clustersNeeded (BuildDisk.geometry m) fdata.length * 4096 ≤
      (BuildDisk.initState (BuildDisk.geometry m)).disk_image.len := by
    rw [BuildDisk.initState_next, BuildDisk.initState_len, BuildDisk.geometry_size_bytes]
    exact hcap
  rw [BuildDisk.addDirData_eq_pre m _ fdata 2 (by omega) hdcf hcap2]
  rw [BuildDisk.initState_getSlice, BuildDisk.geometry_size_bytes]
  have h1 : BuildDisk.cluster_to_sector (BuildDisk.geometry m) 2 * 512 = 278528 := by
    rw [BuildDisk.cluster_to_sector_geometry]
  rw [h1]
  congr 1
  omega

/-- On a fresh all-zero builder state, the slot scan finds slot 0. -/
theorem BuildDisk.initState_scan (m : Nat) (fdata : List Nat) (hm : 1 ≤ m)
    (hcap : BuildDisk.chunkTargetOffset (BuildDisk.geometry m) 3 0 +
      BuildDisk.clustersNeeded (BuildDisk.geometry m) fdata.length * 4096 ≤ m * 1024 * 1024) :
    BuildDisk.scanSlots
      (BuildDisk.addDirData (BuildDisk.geometry m) (BuildDisk.initState (BuildDisk.geometry m))
        fdata 2) 0
      (BuildDisk.addDirData (BuildDisk.geometry m) (BuildDisk.initState (BuildDisk.geometry m))
        fdata 2).length = some 0 := by
  rw [BuildDisk.initState_dirData m fdata hm hcap]
  apply BuildDisk.scanSlots_found
  · rw [List.length_replicate]
    omega
  · left
    rw [List.getD_eq_getElem?_getD, List.getElem?_replicate, if_pos (by omega)]
    rfl
  · rw [List.length_replicate]
    omega

/-- The byte the add method stores at offset 14 of the new directory entry
(slot 0 of the root cluster of a fresh all-zero state) is the low byte of
the encoded wall-clock time. -/
theorem BuildDisk.add_time_byte (m : Nat) (fname fdata : List Nat) (now : BuildDisk.Now)
    (hm : 1 ≤ m) (hname : fname.length = 11) (hS : 0 < fdata.length)
    (hcap : BuildDisk.chunkTargetOffset (BuildDisk.geometry m) 3 0 +
      BuildDisk.clustersNeeded (BuildDisk.geometry m) fdata.length * 4096 ≤ m * 1024 * 1024) :
    ((BuildDisk.add_file_to_directory (BuildDisk.geometry m)
          (BuildDisk.initState (BuildDisk.geometry m)) fname fdata 2 now).getD
        (BuildDisk.initState (BuildDisk.geometry m))).disk_image.byteAt
      (BuildDisk.cluster_to_sector (BuildDisk.geometry m) 2 * 512 + 14) =
      BuildDisk.timeVal now % 256 := by
  have hscan := BuildDisk.initState_scan m fdata hm hcap
  have hdd := BuildDisk.initState_dirData m fdata hm hcap
  obtain ⟨-, -, -, -, -, hdir, -, -⟩ := BuildDisk.add_spec m
    (BuildDisk.initState (BuildDisk.geometry m)) fname fdata 2 now 0 hname hS (by omega)
    (by show (2 : Nat) < 3; omega) hcap hscan
  rw [hdir 14 (by omega)]
  have hdlen : (BuildDisk.addDirData (BuildDisk.geometry m)
      (BuildDisk.initState (BuildDisk.geometry m)) fdata 2).length = 4096 := by
    rw [hdd, List.length_replicate]
  have hie := BuildDisk.insertEntry_getD_entry
    (BuildDisk.addDirData (BuildDisk.geometry m) (BuildDisk.initState (BuildDisk.geometry m))
      fdata 2)
    (BuildDisk.dirEntryBytes fname (BuildDisk.timeVal now) (BuildDisk.dateVal now) 3
      fdata.length) 0 14 (by omega) (BuildDisk.dirEntryBytes_length _ _ _ _ _ hname)
    (by omega)
  rw [Nat.zero_add] at hie
  show (BuildDisk.insertEntry _ (BuildDisk.dirEntryBytes fname (BuildDisk.timeVal now)
    (BuildDisk.dateVal now) 3 fdata.length) 0).getD 14 0 = _
  rw [hie]
  rw [BuildDisk.dirEntryBytes_eq _ _ _ _ _ hname]
  rw [List.getD_eq_getElem?_getD, List.getElem?_append_right (by rw [hname]; omega)]
  rw [hname]
  rfl

/-- C9: for the fixed 32 MiB geometry, the hardcoded sectors-per-FAT value
of each variant (256 in build_disk.py, 160 in create_disk_fixed.py) is at
least ceil(dataClusters * 4 / bytesPerSector), i.e. large enough for one
32-bit FAT entry per addressable data cluster. -/
theorem claim_C9_fat_sizing :
    (BuildDisk.dataClusters (BuildDisk.geometry 32) * 4 + 511) / 512 ≤
      (BuildDisk.geometry 32).sectors_per_fat ∧
    (CreateDiskFixed.dataClustersFixed * 4 + 511) / 512 ≤ CreateDiskFixed.fat_size := by
  decide

/-- C8 counterexample: in create_disk_fixed.py, a declared local source path
that does not exist makes the build print an error and exit before
producing any image, rather than being skipped. -/
theorem claim_C8_counterexample :
    CreateDiskFixed.resolveElf (some none) = CreateDiskFixed.ElfOutcome.exitError ∧
    ∀ d, CreateDiskFixed.resolveElf (some none) ≠ CreateDiskFixed.ElfOutcome.proceed d :=
  ⟨rfl, fun d h => by cases h⟩

/-- C8 amended: in build_disk.py a declared local source path that does not
exist is skipped and the build continues on the unchanged state; in
create_disk_fixed.py the same situation aborts the build with an error exit
before any image is produced. -/
theorem claim_C8_missing_input (g : BuildDisk.Geometry) (s : BuildDisk.DiskState)
    (name : List Nat) (now : BuildDisk.Now) :
    BuildDisk.add_file g s none name now = some s ∧
    CreateDiskFixed.resolveElf (some none) = CreateDiskFixed.ElfOutcome.exitError :=
  ⟨rfl, rfl⟩

set_option maxRecDepth 40000 in
/-- C3 counterexample: two runs of build_disk.py on identical geometry and
file inputs but at different wall-clock times produce images that differ
(at the creation-time byte of the new directory entry), so the build is not
a function of (geometry, ordered file list) alone. -/
theorem claim_C3_counterexample :
    ((BuildDisk.add_file_to_directory (BuildDisk.geometry 32) (BuildDisk.initState (BuildDisk.geometry 32))
          [65, 66, 67, 68, 69, 70, 71, 72, 73, 74, 75] [1, 2, 3] 2
          { hour := 0, minute := 0, second := 0, year := 2020, month := 1, day := 1 }).getD
        (BuildDisk.initState (BuildDisk.geometry 32))).disk_image.byteAt 278542 = 0 ∧
    ((BuildDisk.add_file_to_directory (BuildDisk.geometry 32) (BuildDisk.initState (BuildDisk.geometry 32))
          [65, 66, 67, 68, 69, 70, 71, 72, 73, 74, 75] [1, 2, 3] 2
          { hour := 0, minute := 0, second := 2, year := 2020, month := 1, day := 1 }).getD
        (BuildDisk.initState (BuildDisk.geometry 32))).disk_image.byteAt 278542 = 1 := by
  have hcap : BuildDisk.chunkTargetOffset (BuildDisk.geometry 32) 3 0 +
      BuildDisk.clustersNeeded (BuildDisk.geometry 32) ([1, 2, 3] : List Nat).length * 4096 ≤
        32 * 1024 * 1024 := by decide
  have h1 := BuildDisk.add_time_byte 32 [65, 66, 67, 68, 69, 70, 71, 72, 73, 74, 75] [1, 2, 3]
    { hour := 0, minute := 0, second := 0, year := 2020, month := 1, day := 1 }
    (by omega) (by decide) (by decide) hcap
  have h2 := BuildDisk.add_time_byte 32 [65, 66, 67, 68, 69, 70, 71, 72, 73, 74, 75] [1, 2, 3]
    { hour := 0, minute := 0, second := 2, year := 2020, month := 1, day := 1 }
    (by omega) (by decide) (by decide) hcap
  rw [show BuildDisk.cluster_to_sector (BuildDisk.geometry 32) 2 * 512 + 14 = 278542 by decide]
    at h1 h2
  rw [h1, h2]
  constructor
  · decide
  · decide

/-- C3 amended: build_disk.py is deterministic once the wall clock is fixed
as an additional input: its output depends on `datetime.now()` only through
the encoded time and date words, so two runs whose creation time/date
encodings agree produce identical results; runs at different times differ
(see the counterexample). The create_disk_fixed.py variant writes fixed
timestamp bytes and does not read the clock at all. -/
theorem claim_C3_deterministic_given_time (g : BuildDisk.Geometry) (s : BuildDisk.DiskState)
    (fname fdata : List Nat) (dc : Nat) (n1 n2 : BuildDisk.Now)
    (ht : BuildDisk.timeVal n1 = BuildDisk.timeVal n2)
    (hd : BuildDisk.dateVal n1 = BuildDisk.dateVal n2) :
    BuildDisk.add_file_to_directory g s fname fdata dc n1 =
      BuildDisk.add_file_to_directory g s fname fdata dc n2 := by
  unfold BuildDisk.add_file_to_directory
  rw [ht, hd]

set_option maxRecDepth 40000 in
/-- C3 witness: two concrete clock readings two seconds apart in the same
two-second encoding window give byte-identical results. -/
theorem claim_C3_witness :
    BuildDisk.timeVal { hour := 0, minute := 0, second := 0, year := 2020, month := 1, day := 1 } =
      BuildDisk.timeVal { hour := 0, minute := 0, second := 1, year := 2020, month := 1, day := 1 } ∧
    BuildDisk.dateVal { hour := 0, minute := 0, second := 0, year := 2020, month := 1, day := 1 } =
      BuildDisk.dateVal { hour := 0, minute := 0, second := 1, year := 2020, month := 1, day := 1 } ∧
    BuildDisk.add_file_to_directory (BuildDisk.geometry 32) (BuildDisk.initState (BuildDisk.geometry 32))
        [65, 66, 67, 68, 69, 70, 71, 72, 73, 74, 75] [1, 2, 3] 2
        { hour := 0, minute := 0, second := 0, year := 2020, month := 1, day := 1 } =
      BuildDisk.add_file_to_directory (BuildDisk.geometry 32) (BuildDisk.initState (BuildDisk.geometry 32))
        [65, 66, 67, 68, 69, 70, 71, 72, 73, 74, 75] [1, 2, 3] 2
        { hour := 0, minute := 0, second := 1, year := 2020, month := 1, day := 1 } :=
  ⟨by decide, by decide,
    claim_C3_deterministic_given_time _ _ _ _ _ _ _ (by decide) (by decide)⟩

/-- Value of the FAT-table length for the builder's geometry. -/
theorem BuildDisk.fatTableLen_geometry (m : Nat) :
    BuildDisk.fatTableLen (BuildDisk.geometry m) = 32768 := by
  show 256 * 512 / 4 = 32768
  norm_num

/-- Shared chain description of a successful add: the FAT walk from the
first cluster is the consecutive range, the inner entries are successors,
the last entry is the end-of-chain marker. -/
theorem BuildDisk.add_chain_spec (m : Nat) (s : BuildDisk.DiskState) (fname fdata : List Nat)
    (dc : Nat) (now : BuildDisk.Now)
    (hname : fname.length = 11)
    (hS : 0 < fdata.length)
    (hdc2 : 2 ≤ dc) (hdcf : dc < s.next_free_cluster)
    (hfat : s.next_free_cluster + BuildDisk.clustersNeeded (BuildDisk.geometry m) fdata.length ≤
      BuildDisk.fatTableLen (BuildDisk.geometry m))
    (hcap : BuildDisk.chunkTargetOffset (BuildDisk.geometry m) s.next_free_cluster 0 +
      BuildDisk.clustersNeeded (BuildDisk.geometry m) fdata.length * 4096 ≤ s.disk_image.len)
    (hsucc : (BuildDisk.add_file_to_directory (BuildDisk.geometry m) s fname fdata dc
      now).isSome = true) :
    BuildDisk.chainFrom
        ((BuildDisk.add_file_to_directory (BuildDisk.geometry m) s fname fdata dc now).getD
          s).fat_table s.next_free_cluster
        (BuildDisk.clustersNeeded (BuildDisk.geometry m) fdata.length + 1) =
      List.range' s.next_free_cluster
        (BuildDisk.clustersNeeded (BuildDisk.geometry m) fdata.length) ∧
    (∀ i, i + 1 < BuildDisk.clustersNeeded (BuildDisk.geometry m) fdata.length →
      ((BuildDisk.add_file_to_directory (BuildDisk.geometry m) s fname fdata dc now).getD
        s).fat_table (s.next_free_cluster + i) = s.next_free_cluster + i + 1) ∧
    ((BuildDisk.add_file_to_directory (BuildDisk.geometry m) s fname fdata dc now).getD
      s).fat_table
      (s.next_free_cluster + (BuildDisk.clustersNeeded (BuildDisk.geometry m) fdata.length - 1)) =
      0x0FFFFFFF := by
  obtain ⟨j, hscan⟩ := BuildDisk.add_isSome_scan _ _ _ _ _ _ hsucc
  obtain ⟨-, -, hfat', -, -, -, -, -⟩ :=
    BuildDisk.add_spec m s fname fdata dc now j hname hS hdc2 hdcf hcap hscan
  have hn1 : 1 ≤ BuildDisk.clustersNeeded (BuildDisk.geometry m) fdata.length :=
    BuildDisk.clustersNeeded_pos m fdata.length hS
  rw [BuildDisk.fatTableLen_geometry] at hfat
  have hmid : ∀ i, i + 1 < BuildDisk.clustersNeeded (BuildDisk.geometry m) fdata.length →
      ((BuildDisk.add_file_to_directory (BuildDisk.geometry m) s fname fdata dc now).getD
        s).fat_table (s.next_free_cluster + i) = s.next_free_cluster + i + 1 := by
    intro i hi
    rw [hfat' (s.next_free_cluster + i), if_pos (by omega)]
  have hlast : ((BuildDisk.add_file_to_directory (BuildDisk.geometry m) s fname fdata dc
      now).getD s).fat_table
      (s.next_free_cluster + (BuildDisk.clustersNeeded (BuildDisk.geometry m) fdata.length - 1)) =
      0x0FFFFFFF := by
    rw [hfat', if_neg (by omega), if_pos rfl]
  exact ⟨BuildDisk.chainFrom_range'
    (BuildDisk.clustersNeeded (BuildDisk.geometry m) fdata.length)
    ((BuildDisk.add_file_to_directory (BuildDisk.geometry m) s fname fdata dc now).getD
      s).fat_table s.next_free_cluster hn1 hmid (by rw [hlast]; omega) (by omega), hmid, hlast⟩

/-- C10: the FAT chain of a single added file consists of the consecutive
clusters first, first+1, ..., first+n-1 (the allocator is a bare monotonic
counter), and the data-placement loop's write offsets are exactly the mapped
sector offsets of the clusters of that chain, in order. -/
theorem claim_C10_chain_matches_writes (m : Nat) (s : BuildDisk.DiskState)
    (fname fdata : List Nat) (dc : Nat) (now : BuildDisk.Now)
    (hname : fname.length = 11)
    (hS : 0 < fdata.length)
    (hdc2 : 2 ≤ dc) (hdcf : dc < s.next_free_cluster)
    (hfat : s.next_free_cluster + BuildDisk.clustersNeeded (BuildDisk.geometry m) fdata.length ≤
      BuildDisk.fatTableLen (BuildDisk.geometry m))
    (hcap : BuildDisk.chunkTargetOffset (BuildDisk.geometry m) s.next_free_cluster 0 +
      BuildDisk.clustersNeeded (BuildDisk.geometry m) fdata.length * 4096 ≤ s.disk_image.len)
    (hsucc : (BuildDisk.add_file_to_directory (BuildDisk.geometry m) s fname fdata dc
      now).isSome = true) :
    BuildDisk.chainFrom
        ((BuildDisk.add_file_to_directory (BuildDisk.geometry m) s fname fdata dc now).getD
          s).fat_table s.next_free_cluster
        (BuildDisk.clustersNeeded (BuildDisk.geometry m) fdata.length + 1) =
      List.range' s.next_free_cluster
        (BuildDisk.clustersNeeded (BuildDisk.geometry m) fdata.length) ∧
    (List.range (BuildDisk.clustersNeeded (BuildDisk.geometry m) fdata.length)).map
        (BuildDisk.chunkTargetOffset (BuildDisk.geometry m) s.next_free_cluster) =
      (BuildDisk.chainFrom
          ((BuildDisk.add_file_to_directory (BuildDisk.geometry m) s fname fdata dc now).getD
            s).fat_table s.next_free_cluster
          (BuildDisk.clustersNeeded (BuildDisk.geometry m) fdata.length + 1)).map
        (fun c => BuildDisk.cluster_to_sector (BuildDisk.geometry m) c *
          (BuildDisk.geometry m).sector_size) := by
  obtain ⟨hchain, -, -⟩ :=
    BuildDisk.add_chain_spec m s fname fdata dc now hname hS hdc2 hdcf hfat hcap hsucc
  refine ⟨hchain, ?_⟩
  rw [hchain, List.range'_eq_map_range, List.map_map]
  rfl

/-- C10 witness: the one-cluster chain of a 3-byte file on a fresh state
matches the single data-placement write target. -/
theorem claim_C10_witness :
    0 < ([1, 2, 3] : List Nat).length ∧
    (List.range (BuildDisk.clustersNeeded (BuildDisk.geometry 32)
        ([1, 2, 3] : List Nat).length)).map
      (BuildDisk.chunkTargetOffset (BuildDisk.geometry 32) 3) =
      (BuildDisk.chainFrom
          ((BuildDisk.add_file_to_directory (BuildDisk.geometry 32)
              (BuildDisk.initState (BuildDisk.geometry 32))
              [65, 66, 67, 68, 69, 70, 71, 72, 73, 74, 75] [1, 2, 3] 2
              { hour := 0, minute := 0, second := 0, year := 2020, month := 1, day := 1 }).getD
            (BuildDisk.initState (BuildDisk.geometry 32))).fat_table 3
          (BuildDisk.clustersNeeded (BuildDisk.geometry 32) ([1, 2, 3] : List Nat).length +
            1)).map
        (fun c => BuildDisk.cluster_to_sector (BuildDisk.geometry 32) c *
          (BuildDisk.geometry 32).sector_size) := by
  have hsucc : (BuildDisk.add_file_to_directory (BuildDisk.geometry 32)
      (BuildDisk.initState (BuildDisk.geometry 32))
      [65, 66, 67, 68, 69, 70, 71, 72, 73, 74, 75] [1, 2, 3] 2
      { hour := 0, minute := 0, second := 0, year := 2020, month := 1, day := 1 }).isSome =
      true := by
    rw [BuildDisk.add_eq_of_scan _ _ _ _ _ _ 0
      (BuildDisk.initState_scan 32 [1, 2, 3] (by omega) (by decide))]
    rfl
  exact ⟨by decide, (claim_C10_chain_matches_writes 32
    (BuildDisk.initState (BuildDisk.geometry 32))
    [65, 66, 67, 68, 69, 70, 71, 72, 73, 74, 75] [1, 2, 3] 2
    { hour := 0, minute := 0, second := 0, year := 2020, month := 1, day := 1 }
    (by decide) (by decide) (by decide) (by decide) (by decide) (by decide) hsucc).2⟩

/-- Description of a successful add of an empty payload: nothing is
allocated, the FAT and the counter are untouched, and the directory entry
is written with first cluster 0 and size 0. -/
theorem BuildDisk.add_spec_zero (m : Nat) (s : BuildDisk.DiskState) (fname : List Nat)
    (dc : Nat) (now : BuildDisk.Now) (j : Nat)
    (hname : fname.length = 11)
    (hdlen : BuildDisk.cluster_to_sector (BuildDisk.geometry m) dc * 512 + 4096 ≤
      s.disk_image.len)
    (hscan : BuildDisk.scanSlots
      (BuildDisk.addDirData (BuildDisk.geometry m) s ([] : List Nat) dc) 0
      (BuildDisk.addDirData (BuildDisk.geometry m) s ([] : List Nat) dc).length = some j) :
    (BuildDisk.add_file_to_directory (BuildDisk.geometry m) s fname [] dc now).isSome = true ∧
    ((BuildDisk.add_file_to_directory (BuildDisk.geometry m) s fname [] dc now).getD
      s).next_free_cluster = s.next_free_cluster ∧
    ((BuildDisk.add_file_to_directory (BuildDisk.geometry m) s fname [] dc now).getD
      s).fat_table = s.fat_table ∧
    ((BuildDisk.add_file_to_directory (BuildDisk.geometry m) s fname [] dc now).getD
      s).disk_image.len = s.disk_image.len ∧
    ∀ p, p < 32 →
      ((BuildDisk.add_file_to_directory (BuildDisk.geometry m) s fname [] dc now).getD
        s).disk_image.byteAt (BuildDisk.cluster_to_sector (BuildDisk.geometry m) dc * 512 +
          (j + p)) =
      (BuildDisk.dirEntryBytes fname (BuildDisk.timeVal now) (BuildDisk.dateVal now) 0
        0).getD p 0 := by
  have hadd := BuildDisk.add_eq_of_scan (BuildDisk.geometry m) s fname [] dc now j hscan
  have hn0 : BuildDisk.clustersNeeded (BuildDisk.geometry m) 0 = 0 := by
    simp only [BuildDisk.clustersNeeded, BuildDisk.geometry_bytes_per_cluster]
  have halloc : BuildDisk.allocChain (BuildDisk.geometry m) s 0 = (0, s) := by
    simp only [BuildDisk.allocChain]
    rw [if_neg (by omega)]
  have himg0 : BuildDisk.addImg (BuildDisk.geometry m) s [] = s.disk_image := by
    unfold BuildDisk.addImg
    simp only [List.length_nil]
    rw [halloc, hn0]
    rfl
  have hdd : BuildDisk.addDirData (BuildDisk.geometry m) s ([] : List Nat) dc =
      s.disk_image.getSlice (BuildDisk.cluster_to_sector (BuildDisk.geometry m) dc * 512)
        (BuildDisk.cluster_to_sector (BuildDisk.geometry m) dc * 512 + 4096) := by
    unfold BuildDisk.addDirData
    rw [himg0, BuildDisk.geometry_sector_size, BuildDisk.geometry_bytes_per_cluster]
  have hddlen : (BuildDisk.addDirData (BuildDisk.geometry m) s ([] : List Nat) dc).length =
      4096 := by
    rw [hdd, getSlice_length _ _ _ (by omega) (by omega)]
    omega
  obtain ⟨-, hj32, hjlt, -, -⟩ := BuildDisk.scanSlots_some
    (BuildDisk.addDirData (BuildDisk.geometry m) s ([] : List Nat) dc)
    (BuildDisk.addDirData (BuildDisk.geometry m) s ([] : List Nat) dc).length 0 j hscan
  rw [hddlen] at hjlt
  have hj32' : j % 32 = 0 := by simpa using hj32
  have hentrylen : (BuildDisk.dirEntryBytes fname (BuildDisk.timeVal now)
      (BuildDisk.dateVal now) 0 0).length = 32 :=
    BuildDisk.dirEntryBytes_length _ _ _ _ _ hname
  have hd2len : (BuildDisk.insertEntry
      (BuildDisk.addDirData (BuildDisk.geometry m) s ([] : List Nat) dc)
      (BuildDisk.dirEntryBytes fname (BuildDisk.timeVal now) (BuildDisk.dateVal now) 0 0)
      j).length = 4096 := by
    rw [BuildDisk.insertEntry_length _ _ _ (by omega) hentrylen, hddlen]
  have hr : (BuildDisk.add_file_to_directory (BuildDisk.geometry m) s fname [] dc now).getD
      s = { disk_image := ByteBuf.setSlice s.disk_image
              (BuildDisk.cluster_to_sector (BuildDisk.geometry m) dc * 512)
              (BuildDisk.insertEntry
                (BuildDisk.addDirData (BuildDisk.geometry m) s ([] : List Nat) dc)
                (BuildDisk.dirEntryBytes fname (BuildDisk.timeVal now) (BuildDisk.dateVal now)
                  0 0) j)
            fat_table := s.fat_table
            next_free_cluster := s.next_free_cluster } := by
    rw [hadd, Option.getD_some]
    simp only [List.length_nil, halloc, himg0, BuildDisk.geometry_sector_size]
  refine ⟨by rw [hadd]; rfl, by rw [hr], by rw [hr], ?_, ?_⟩
  · rw [hr]
    show (ByteBuf.setSlice _ _ _).len = _
    rw [setSlice_len]
    rw [hd2len]
    omega
  · intro p hp
    rw [hr]
    show (ByteBuf.setSlice _ _ _).byteAt _ = _
    rw [setSlice_byteAt_mid]
    · rw [Nat.add_sub_cancel_left]
      have hie := BuildDisk.insertEntry_getD_entry
        (BuildDisk.addDirData (BuildDisk.geometry m) s ([] : List Nat) dc)
        (BuildDisk.dirEntryBytes fname (BuildDisk.timeVal now) (BuildDisk.dateVal now) 0 0)
        j p (by omega) hentrylen hp
      exact hie
    · omega
    · omega
    · rw [hd2len]
      omega

/-- C7: adding a zero-byte file allocates no clusters (the allocation
counter and the whole FAT table are unchanged) and the new directory entry
records first cluster 0 (bytes 20-21 and 26-27 of the entry) and size 0
(bytes 28-31). -/
theorem claim_C7_empty_file (m : Nat) (s : BuildDisk.DiskState) (fname : List Nat)
    (dc : Nat) (now : BuildDisk.Now) (j : Nat)
    (hname : fname.length = 11)
    (hdlen : BuildDisk.cluster_to_sector (BuildDisk.geometry m) dc * 512 + 4096 ≤
      s.disk_image.len)
    (hscan : BuildDisk.scanSlots
      (BuildDisk.addDirData (BuildDisk.geometry m) s ([] : List Nat) dc) 0
      (BuildDisk.addDirData (BuildDisk.geometry m) s ([] : List Nat) dc).length = some j) :
    (BuildDisk.add_file_to_directory (BuildDisk.geometry m) s fname [] dc now).isSome = true ∧
    ((BuildDisk.add_file_to_directory (BuildDisk.geometry m) s fname [] dc now).getD
      s).next_free_cluster = s.next_free_cluster ∧
    ((BuildDisk.add_file_to_directory (BuildDisk.geometry m) s fname [] dc now).getD
      s).fat_table = s.fat_table ∧
    (∀ p, p = 20 ∨ p = 21 ∨ p = 26 ∨ p = 27 ∨ p = 28 ∨ p = 29 ∨ p = 30 ∨ p = 31 →
      ((BuildDisk.add_file_to_directory (BuildDisk.geometry m) s fname [] dc now).getD
        s).disk_image.byteAt (BuildDisk.cluster_to_sector (BuildDisk.geometry m) dc * 512 +
          (j + p)) = 0) := by
  obtain ⟨h1, h2, h3, -, hbyte⟩ :=
    BuildDisk.add_spec_zero m s fname dc now j hname hdlen hscan
  refine ⟨h1, h2, h3, ?_⟩
  intro p hp
  rw [hbyte p (by omega), BuildDisk.dirEntryBytes_eq _ _ _ _ _ hname,
    List.getD_eq_getElem?_getD, List.getElem?_append_right (by rw [hname]; omega), hname]
  rcases hp with h | h | h | h | h | h | h | h <;> subst h <;> rfl

/-- C7 witness: a zero-byte file added to the root of a fresh 32 MiB state
leaves the counter at 3 and the FAT untouched. -/
theorem claim_C7_witness :
    ([65, 66, 67, 68, 69, 70, 71, 72, 73, 74, 75] : List Nat).length = 11 ∧
    ((BuildDisk.add_file_to_directory (BuildDisk.geometry 32)
        (BuildDisk.initState (BuildDisk.geometry 32))
        [65, 66, 67, 68, 69, 70, 71, 72, 73, 74, 75] [] 2
        { hour := 0, minute := 0, second := 0, year := 2020, month := 1, day := 1 }).getD
      (BuildDisk.initState (BuildDisk.geometry 32))).next_free_cluster = 3 := by
  have hscan := BuildDisk.initState_scan 32 [] (by omega) (by decide)
  exact ⟨by decide, (claim_C7_empty_file 32 (BuildDisk.initState (BuildDisk.geometry 32))
    [65, 66, 67, 68, 69, 70, 71, 72, 73, 74, 75] 2
    { hour := 0, minute := 0, second := 0, year := 2020, month := 1, day := 1 } 0
    (by decide) (by decide) hscan).2.1⟩

/-- Concatenating over a consecutive range is concatenating the shifted
function over the corresponding initial range. -/
theorem catMap_range' (f : Nat → List Nat) : ∀ (n first : Nat),
    catMap f (List.range' first n) = catMap (fun i => f (first + i)) (List.range n) := by
  intro n
  induction n with
  | zero => intro first; rfl
  | succ n ih =>
    intro first
    rw [List.range'_succ, List.range_succ_eq_map]
    show f first ++ catMap f (List.range' (first + 1) n) =
      f (first + 0) ++ catMap (fun i => f (first + i)) ((List.range n).map Nat.succ)
    rw [BuildDisk.catMap_map, ih (first + 1)]
    have h : (fun i => f (first + 1 + i)) = fun i => f (first + Nat.succ i) := by
      funext i
      have e : first + 1 + i = first + Nat.succ i := by omega
      rw [e]
    rw [h, Nat.add_zero]

/-- Congruence of `catMap` over an initial range needs agreement only below
the bound. -/
theorem catMap_congr_range (f g2 : Nat → List Nat) : ∀ (n : Nat),
    (∀ i, i < n → f i = g2 i) →
    catMap f (List.range n) = catMap g2 (List.range n) := by
  intro n
  induction n with
  | zero => intro h; rfl
  | succ n ih =>
    intro h
    rw [List.range_succ, BuildDisk.catMap_append, BuildDisk.catMap_append, ih (fun i hi => h i (by omega))]
    simp only [catMap, List.append_nil]
    rw [h n (by omega)]

/-- The image offset of data cluster `first + i` is the offset of cluster
`first` advanced by `i` clusters. -/
theorem BuildDisk.cluster_offset_add (m first i : Nat) (h2 : 2 ≤ first) :
    BuildDisk.cluster_to_sector (BuildDisk.geometry m) (first + i) * 512 =
      BuildDisk.chunkTargetOffset (BuildDisk.geometry m) first 0 + i * 4096 := by
  simp only [BuildDisk.chunkTargetOffset, BuildDisk.cluster_to_sector,
    BuildDisk.geometry_data_start_sector, BuildDisk.geometry_sectors_per_cluster,
    BuildDisk.geometry_sector_size, Nat.add_zero]
  omega

/-- The cluster count the add method computes for a nonempty payload, in
closed form. -/
theorem BuildDisk.clustersNeeded_geometry (m S : Nat) :
    BuildDisk.clustersNeeded (BuildDisk.geometry m) S = (S + 4095) / 4096 := by
  simp only [BuildDisk.clustersNeeded, BuildDisk.geometry_bytes_per_cluster]
  congr 1

set_option maxRecDepth 8000 in
/-- C1: round-trip of a successful nonempty add in build_disk.py. Reading
back the image bytes of each cluster of the file chain (each cluster offset
computed through cluster_to_sector) and concatenating them in chain order
yields exactly the original payload followed by trailing zero bytes up to
the next cluster boundary. -/
theorem claim_C1_roundtrip (m : Nat) (s : BuildDisk.DiskState) (fname fdata : List Nat)
    (dc : Nat) (now : BuildDisk.Now)
    (hname : fname.length = 11)
    (hS : 0 < fdata.length)
    (hdc2 : 2 ≤ dc) (hdcf : dc < s.next_free_cluster)
    (hfat : s.next_free_cluster + BuildDisk.clustersNeeded (BuildDisk.geometry m) fdata.length ≤
      BuildDisk.fatTableLen (BuildDisk.geometry m))
    (hcap : BuildDisk.chunkTargetOffset (BuildDisk.geometry m) s.next_free_cluster 0 +
      BuildDisk.clustersNeeded (BuildDisk.geometry m) fdata.length * 4096 ≤ s.disk_image.len)
    (hsucc : (BuildDisk.add_file_to_directory (BuildDisk.geometry m) s fname fdata dc
      now).isSome = true) :
    BuildDisk.readChain (BuildDisk.geometry m)
        ((BuildDisk.add_file_to_directory (BuildDisk.geometry m) s fname fdata dc now).getD
          s).disk_image
        ((BuildDisk.add_file_to_directory (BuildDisk.geometry m) s fname fdata dc now).getD
          s).fat_table
        s.next_free_cluster
        (BuildDisk.clustersNeeded (BuildDisk.geometry m) fdata.length + 1) =
      fdata ++ List.replicate
        (BuildDisk.clustersNeeded (BuildDisk.geometry m) fdata.length * 4096 - fdata.length)
        0 := by
  obtain ⟨j, hscan⟩ := BuildDisk.add_isSome_scan _ _ _ _ _ _ hsucc
  obtain ⟨-, -, -, hlen, -, -, hdata, -⟩ :=
    BuildDisk.add_spec m s fname fdata dc now j hname hS hdc2 hdcf hcap hscan
  have hchain := (BuildDisk.add_chain_spec m s fname fdata dc now hname hS hdc2 hdcf hfat
    hcap hsucc).1
  have hnval := BuildDisk.clustersNeeded_geometry m fdata.length
  have hLlen : (fdata ++ List.replicate (BuildDisk.clustersNeeded (BuildDisk.geometry m)
      fdata.length * 4096 - fdata.length) 0).length =
      BuildDisk.clustersNeeded (BuildDisk.geometry m) fdata.length * 4096 := by
    rw [List.length_append, List.length_replicate]
    omega
  have hfirst2 : 2 ≤ s.next_free_cluster := by omega
  have hwin : ∀ i, i < BuildDisk.clustersNeeded (BuildDisk.geometry m) fdata.length →
      ((BuildDisk.add_file_to_directory (BuildDisk.geometry m) s fname fdata dc now).getD
          s).disk_image.getSlice
          (BuildDisk.cluster_to_sector (BuildDisk.geometry m) (s.next_free_cluster + i) * 512)
          (BuildDisk.cluster_to_sector (BuildDisk.geometry m) (s.next_free_cluster + i) * 512 +
            4096) =
        listOfFn 4096 (fun r =>
          (fdata ++ List.replicate (BuildDisk.clustersNeeded (BuildDisk.geometry m)
            fdata.length * 4096 - fdata.length) 0).getD (i * 4096 + r) 0) := by
    intro i hi
    have hoff := BuildDisk.cluster_offset_add m s.next_free_cluster i hfirst2
    have hstop : BuildDisk.cluster_to_sector (BuildDisk.geometry m)
        (s.next_free_cluster + i) * 512 + 4096 ≤
        ((BuildDisk.add_file_to_directory (BuildDisk.geometry m) s fname fdata dc now).getD
          s).disk_image.len := by
      rw [hlen, hoff]
      have h48 : i * 4096 + 4096 ≤
          BuildDisk.clustersNeeded (BuildDisk.geometry m) fdata.length * 4096 := by omega
      omega
    apply List.ext_getElem
    · rw [getSlice_length _ _ _ (by omega) hstop, listOfFn_length]
      omega
    · intro r h1 h2
      rw [getSlice_length _ _ _ (by omega) hstop] at h1
      have hr : r < 4096 := by omega
      have e1 : (((BuildDisk.add_file_to_directory (BuildDisk.geometry m) s fname fdata dc
          now).getD s).disk_image.getSlice
          (BuildDisk.cluster_to_sector (BuildDisk.geometry m) (s.next_free_cluster + i) * 512)
          (BuildDisk.cluster_to_sector (BuildDisk.geometry m) (s.next_free_cluster + i) * 512 +
            4096)).getD r 0 =
          ((BuildDisk.add_file_to_directory (BuildDisk.geometry m) s fname fdata dc
            now).getD s).disk_image.byteAt
            (BuildDisk.cluster_to_sector (BuildDisk.geometry m)
              (s.next_free_cluster + i) * 512 + r) :=
        getSlice_getD _ _ _ _ (by omega) hstop
      have e2 := listOfFn_getD 4096 (fun r2 =>
        (fdata ++ List.replicate (BuildDisk.clustersNeeded (BuildDisk.geometry m)
          fdata.length * 4096 - fdata.length) 0).getD (i * 4096 + r2) 0) r hr
      rw [List.getD_eq_getElem?_getD, List.getElem?_eq_getElem (by omega), Option.getD_some]
        at e1
      rw [List.getD_eq_getElem?_getD, List.getElem?_eq_getElem (by rw [listOfFn_length]; omega),
        Option.getD_some] at e2
      rw [e1, e2, hoff,
        show BuildDisk.chunkTargetOffset (BuildDisk.geometry m) s.next_free_cluster 0 +
          i * 4096 + r = BuildDisk.chunkTargetOffset (BuildDisk.geometry m)
          s.next_free_cluster 0 + (i * 4096 + r) from by omega,
        hdata i r hi hr]
      exact BuildDisk.chunkPadded_getD m fdata i
        (BuildDisk.clustersNeeded (BuildDisk.geometry m) fdata.length) r hnval hi hr
  simp only [BuildDisk.readChain, BuildDisk.geometry_sector_size,
    BuildDisk.geometry_bytes_per_cluster]
  rw [hchain, catMap_range']
  rw [catMap_congr_range
    (fun i =>
      ((BuildDisk.add_file_to_directory (BuildDisk.geometry m) s fname fdata dc now).getD
          s).disk_image.getSlice
        (BuildDisk.cluster_to_sector (BuildDisk.geometry m) (s.next_free_cluster + i) * 512)
        (BuildDisk.cluster_to_sector (BuildDisk.geometry m) (s.next_free_cluster + i) * 512 +
          4096))
    (fun i => listOfFn 4096 (fun r =>
      (fdata ++ List.replicate (BuildDisk.clustersNeeded (BuildDisk.geometry m)
        fdata.length * 4096 - fdata.length) 0).getD (i * 4096 + r) 0))
    (BuildDisk.clustersNeeded (BuildDisk.geometry m) fdata.length) hwin]
  rw [BuildDisk.catMap_windows 4096 (BuildDisk.clustersNeeded (BuildDisk.geometry m) fdata.length)
    _ (le_of_eq hLlen.symm)]
  exact List.take_of_length_le (le_of_eq hLlen)

/-- C1 witness: a 3-byte file added to a fresh 32 MiB builder state reads
back as those 3 bytes followed by 4093 zeros. -/
theorem claim_C1_witness :
    0 < ([9, 8, 7] : List Nat).length ∧
    BuildDisk.readChain (BuildDisk.geometry 32)
        ((BuildDisk.add_file_to_directory (BuildDisk.geometry 32)
            (BuildDisk.initState (BuildDisk.geometry 32))
            [65, 66, 67, 68, 69, 70, 71, 72, 73, 74, 75] [9, 8, 7] 2
            { hour := 0, minute := 0, second := 0, year := 2020, month := 1, day := 1 }).getD
          (BuildDisk.initState (BuildDisk.geometry 32))).disk_image
        ((BuildDisk.add_file_to_directory (BuildDisk.geometry 32)
            (BuildDisk.initState (BuildDisk.geometry 32))
            [65, 66, 67, 68, 69, 70, 71, 72, 73, 74, 75] [9, 8, 7] 2
            { hour := 0, minute := 0, second := 0, year := 2020, month := 1, day := 1 }).getD
          (BuildDisk.initState (BuildDisk.geometry 32))).fat_table 3
        (BuildDisk.clustersNeeded (BuildDisk.geometry 32) ([9, 8, 7] : List Nat).length + 1) =
      [9, 8, 7] ++ List.replicate
        (BuildDisk.clustersNeeded (BuildDisk.geometry 32)
          ([9, 8, 7] : List Nat).length * 4096 - ([9, 8, 7] : List Nat).length) 0 := by
  have hsucc : (BuildDisk.add_file_to_directory (BuildDisk.geometry 32)
      (BuildDisk.initState (BuildDisk.geometry 32))
      [65, 66, 67, 68, 69, 70, 71, 72, 73, 74, 75] [9, 8, 7] 2
      { hour := 0, minute := 0, second := 0, year := 2020, month := 1, day := 1 }).isSome =
      true := by
    rw [BuildDisk.add_eq_of_scan _ _ _ _ _ _ 0
      (BuildDisk.initState_scan 32 [9, 8, 7] (by omega) (by decide))]
    rfl
  exact ⟨by decide, claim_C1_roundtrip 32 (BuildDisk.initState (BuildDisk.geometry 32))
    [65, 66, 67, 68, 69, 70, 71, 72, 73, 74, 75] [9, 8, 7] 2
    { hour := 0, minute := 0, second := 0, year := 2020, month := 1, day := 1 }
    (by decide) (by decide) (by decide) (by decide) (by decide) (by decide) hsucc⟩

/-- C6: directory insertion in build_disk.py fails (DirectoryFull, the method
returns None and the build aborts) exactly when none of the stride-32 slots
of the single 4096-byte directory cluster carries an empty (0x00) or deleted
(0xE5) marker; on success the 32-byte entry is written into the first such
slot, which lies wholly inside that one cluster — the directory never grows
to a second cluster. -/
theorem claim_C6_directory_insertion (m : Nat) (s : BuildDisk.DiskState)
    (fname fdata : List Nat) (dc : Nat) (now : BuildDisk.Now)
    (hname : fname.length = 11)
    (hS : 0 < fdata.length)
    (hdc2 : 2 ≤ dc) (hdcf : dc < s.next_free_cluster)
    (hcap : BuildDisk.chunkTargetOffset (BuildDisk.geometry m) s.next_free_cluster 0 +
      BuildDisk.clustersNeeded (BuildDisk.geometry m) fdata.length * 4096 ≤ s.disk_image.len) :
    (BuildDisk.add_file_to_directory (BuildDisk.geometry m) s fname fdata dc now = none ↔
      ∀ j, j < 4096 → j % 32 = 0 →
        ¬((BuildDisk.addDirData (BuildDisk.geometry m) s fdata dc).getD j 0 = 0x00 ∨
          (BuildDisk.addDirData (BuildDisk.geometry m) s fdata dc).getD j 0 = 0xE5)) ∧
    (∀ s2, BuildDisk.add_file_to_directory (BuildDisk.geometry m) s fname fdata dc now =
        some s2 →
      ∃ j, j % 32 = 0 ∧ j + 32 ≤ 4096 ∧
        ((BuildDisk.addDirData (BuildDisk.geometry m) s fdata dc).getD j 0 = 0x00 ∨
          (BuildDisk.addDirData (BuildDisk.geometry m) s fdata dc).getD j 0 = 0xE5) ∧
        (∀ j2, j2 < j → j2 % 32 = 0 →
          ¬((BuildDisk.addDirData (BuildDisk.geometry m) s fdata dc).getD j2 0 = 0x00 ∨
            (BuildDisk.addDirData (BuildDisk.geometry m) s fdata dc).getD j2 0 = 0xE5)) ∧
        (∀ p, p < 32 → s2.disk_image.byteAt
            (BuildDisk.cluster_to_sector (BuildDisk.geometry m) dc * 512 + (j + p)) =
          (BuildDisk.dirEntryBytes fname (BuildDisk.timeVal now) (BuildDisk.dateVal now)
            s.next_free_cluster fdata.length).getD p 0)) := by
  have hdlt := BuildDisk.dir_below_data m dc s.next_free_cluster hdc2 hdcf
  have hdir_len : BuildDisk.cluster_to_sector (BuildDisk.geometry m) dc * 512 + 4096 ≤
      s.disk_image.len := by omega
  have hpre := BuildDisk.addDirData_eq_pre m s fdata dc hdc2 hdcf hcap
  have hddlen : (BuildDisk.addDirData (BuildDisk.geometry m) s fdata dc).length = 4096 := by
    rw [hpre, getSlice_length _ _ _ (by omega) (by omega)]
    omega
  constructor
  · constructor
    · intro hnone j hj hj32
      have hscan := (BuildDisk.add_none_iff (BuildDisk.geometry m) s fname fdata dc now).mp
        hnone
      exact BuildDisk.scanSlots_none (BuildDisk.addDirData (BuildDisk.geometry m) s fdata dc)
        (BuildDisk.addDirData (BuildDisk.geometry m) s fdata dc).length 0
        (by omega) hscan j (by omega) (by omega) (by omega)
    · intro hall
      cases hadd : BuildDisk.add_file_to_directory (BuildDisk.geometry m) s fname fdata dc
          now with
      | none => rfl
      | some s2 =>
        have hsome : (BuildDisk.add_file_to_directory (BuildDisk.geometry m) s fname fdata dc
            now).isSome = true := by
          rw [hadd]
          rfl
        obtain ⟨j, hscan⟩ := BuildDisk.add_isSome_scan _ _ _ _ _ _ hsome
        obtain ⟨-, hj32, hjlt, hmark, -⟩ := BuildDisk.scanSlots_some _ _ _ _ hscan
        exact absurd hmark (hall j (by omega) (by omega))
  · intro s2 hadd
    have hsome : (BuildDisk.add_file_to_directory (BuildDisk.geometry m) s fname fdata dc
        now).isSome = true := by
      rw [hadd]
      rfl
    obtain ⟨j, hscan⟩ := BuildDisk.add_isSome_scan _ _ _ _ _ _ hsome
    obtain ⟨-, hj32, hjlt, hmark, hfirstslot⟩ := BuildDisk.scanSlots_some _ _ _ _ hscan
    obtain ⟨-, -, -, -, -, hdir, -, -⟩ :=
      BuildDisk.add_spec m s fname fdata dc now j hname hS hdc2 hdcf hcap hscan
    refine ⟨j, by omega, by omega, hmark, ?_, ?_⟩
    · intro j2 hj2 hj232
      exact hfirstslot j2 (by omega) hj2 (by omega)
    · intro p hp
      have h1 := hdir (j + p) (by omega)
      rw [hadd, Option.getD_some] at h1
      rw [h1]
      exact BuildDisk.insertEntry_getD_entry _ _ _ _ (by omega)
        (BuildDisk.dirEntryBytes_length _ _ _ _ _ hname) hp

/-- C6 witness: on a fresh 32 MiB state the insertion of a 2-byte file
succeeds, so the failure side of the equivalence is concrete and false. -/
theorem claim_C6_witness :
    0 < ([4, 2] : List Nat).length ∧
    (BuildDisk.add_file_to_directory (BuildDisk.geometry 32)
        (BuildDisk.initState (BuildDisk.geometry 32))
        [65, 66, 67, 68, 69, 70, 71, 72, 73, 74, 75] [4, 2] 2
        { hour := 0, minute := 0, second := 0, year := 2020, month := 1, day := 1 } = none ↔
      ∀ j, j < 4096 → j % 32 = 0 →
        ¬((BuildDisk.addDirData (BuildDisk.geometry 32)
            (BuildDisk.initState (BuildDisk.geometry 32)) [4, 2] 2).getD j 0 = 0x00 ∨
          (BuildDisk.addDirData (BuildDisk.geometry 32)
            (BuildDisk.initState (BuildDisk.geometry 32)) [4, 2] 2).getD j 0 = 0xE5)) :=
  ⟨by decide, (claim_C6_directory_insertion 32 (BuildDisk.initState (BuildDisk.geometry 32))
    [65, 66, 67, 68, 69, 70, 71, 72, 73, 74, 75] [4, 2] 2
    { hour := 0, minute := 0, second := 0, year := 2020, month := 1, day := 1 }
    (by decide) (by decide) (by decide) (by decide) (by decide)).1⟩

theorem getD_append_left (l1 l2 : List Nat) (i : Nat) (h : i < l1.length) :
    (l1 ++ l2).getD i 0 = l1.getD i 0 := by
  rw [List.getD_eq_getElem?_getD, List.getElem?_append_left h, ← List.getD_eq_getElem?_getD]

theorem getD_append_right (l1 l2 : List Nat) (i : Nat) (h : l1.length ≤ i) :
    (l1 ++ l2).getD i 0 = l2.getD (i - l1.length) 0 := by
  rw [List.getD_eq_getElem?_getD, List.getElem?_append_right h, ← List.getD_eq_getElem?_getD]

/-- Length of the serialized FAT: four bytes per entry. -/
theorem BuildDisk.fatDataBytes_length (fat : Nat → Nat) :
    ∀ n, (BuildDisk.fatDataBytes fat n).length = 4 * n := by
  intro n
  induction n with
  | zero => rfl
  | succ n ih =>
    simp only [BuildDisk.fatDataBytes, List.length_append, ih, leBytes_length]
    omega

/-- `write_fat_tables` is two slice writes of the serialized table, at the
primary and mirror FAT offsets. -/
theorem BuildDisk.write_fat_tables_eq (m : Nat) (s : BuildDisk.DiskState) :
    (BuildDisk.write_fat_tables (BuildDisk.geometry m) s).disk_image =
      (s.disk_image.setSlice 16384 (BuildDisk.fatDataBytes s.fat_table 32768)).setSlice 147456
        (BuildDisk.fatDataBytes s.fat_table 32768) := by
  simp only [BuildDisk.write_fat_tables, BuildDisk.fatTableLen_geometry,
    BuildDisk.geometry_fat_count, BuildDisk.geometry_fat_start_sector,
    BuildDisk.geometry_sectors_per_fat, BuildDisk.geometry_sector_size]
  rw [show List.range 2 = [0, 1] from rfl]
  simp only [List.foldl_cons, List.foldl_nil]

set_option maxRecDepth 40000 in
/-- First byte of the boot sector build_disk.py assembles: the 0xEB jump. -/
theorem BuildDisk.bootSectorBytes_getD0 :
    (BuildDisk.bootSectorBytes (BuildDisk.geometry 32)).getD 0 0 = 0xEB := by
  rfl

set_option maxRecDepth 40000 in
/-- The boot sector of build_disk.py is one sector long. -/
theorem BuildDisk.bootSectorBytes_len :
    (BuildDisk.bootSectorBytes (BuildDisk.geometry 32)).length = 512 := by
  rfl

set_option maxRecDepth 40000 in
/-- The FSInfo sector of build_disk.py is one sector long. -/
theorem BuildDisk.fsinfoBytes_len : BuildDisk.fsinfoBytes.length = 512 := by
  rfl

/-- The root-directory cluster of build_disk.py is one cluster long. -/
theorem BuildDisk.rootDirBytes_len (m : Nat) :
    (BuildDisk.rootDirBytes (BuildDisk.geometry m)).length = 4096 := by
  simp only [BuildDisk.rootDirBytes, BuildDisk.geometry_bytes_per_cluster]
  rw [setSliceList_length]
  · rw [List.length_replicate]
  · rw [List.length_replicate, List.length_set, setSliceList_length]
    · rw [List.length_replicate]
      omega
    · rw [List.length_replicate]
      norm_num

set_option maxRecDepth 40000 in
/-- The boot sector of create_disk_fixed.py is one sector long. -/
theorem CreateDiskFixed.create_boot_sector_len :
    CreateDiskFixed.create_boot_sector.length = 512 := by
  rfl

/-- Past sector 6, the reserved-area loop emits only zero sectors. -/
theorem CreateDiskFixed.reservedArea_tail :
    ∀ (k a : Nat), 7 ≤ a →
      catMap (fun i => if i = 6 then CreateDiskFixed.create_boot_sector
          else List.replicate CreateDiskFixed.BYTES_PER_SECTOR 0) (List.range' a k) =
        List.replicate (k * 512) 0 := by
  intro k
  induction k with
  | zero => intro a _; rfl
  | succ k ih =>
    intro a ha
    rw [List.range'_succ]
    show (if a = 6 then _ else _) ++ _ = _
    rw [if_neg (by omega), ih (a + 1) (by omega)]
    show List.replicate CreateDiskFixed.BYTES_PER_SECTOR 0 ++ _ = _
    rw [show CreateDiskFixed.BYTES_PER_SECTOR = 512 from rfl, ← List.replicate_add]
    congr 1
    omega

/-- The reserved area of create_disk_fixed.py: four zero sectors, the boot
sector repeated at sector 6, then zero sectors to sector 31. -/
theorem CreateDiskFixed.reservedArea_eq :
    CreateDiskFixed.reservedArea =
      List.replicate 2048 0 ++
        (CreateDiskFixed.create_boot_sector ++ List.replicate 12800 0) := by
  have h1 : catMap (fun i => if i = 6 then CreateDiskFixed.create_boot_sector
      else List.replicate CreateDiskFixed.BYTES_PER_SECTOR 0) [2, 3, 4, 5] =
      List.replicate 2048 0 := by
    simp only [catMap]
    rw [if_neg (by omega : ¬(2 : Nat) = 6), if_neg (by omega : ¬(3 : Nat) = 6),
      if_neg (by omega : ¬(4 : Nat) = 6), if_neg (by omega : ¬(5 : Nat) = 6),
      List.append_nil]
    rw [show CreateDiskFixed.BYTES_PER_SECTOR = 512 from rfl, ← List.replicate_add,
      ← List.replicate_add, ← List.replicate_add]
  have h2 : catMap (fun i => if i = 6 then CreateDiskFixed.create_boot_sector
      else List.replicate CreateDiskFixed.BYTES_PER_SECTOR 0) (6 :: List.range' 7 25) =
      CreateDiskFixed.create_boot_sector ++ List.replicate 12800 0 := by
    show (if (6 : Nat) = 6 then CreateDiskFixed.create_boot_sector
        else List.replicate CreateDiskFixed.BYTES_PER_SECTOR 0) ++
      catMap _ (List.range' 7 25) = _
    rw [if_pos rfl, CreateDiskFixed.reservedArea_tail 25 7 (by omega),
      show (25 * 512 : Nat) = 12800 from by norm_num]
  unfold CreateDiskFixed.reservedArea
  rw [show List.range' 2 30 = [2, 3, 4, 5] ++ 6 :: List.range' 7 25 from by rfl,
    BuildDisk.catMap_append, h1, h2]

/-- Length of the reserved area written by create_disk_fixed.py. -/
theorem CreateDiskFixed.reservedArea_len : CreateDiskFixed.reservedArea.length = 15360 := by
  rw [CreateDiskFixed.reservedArea_eq]
  simp only [List.length_append, List.length_replicate,
    CreateDiskFixed.create_boot_sector_len]

set_option maxRecDepth 40000 in
/-- The FSInfo sector of create_disk_fixed.py is one sector long. -/
theorem CreateDiskFixed.create_fsinfo_len : CreateDiskFixed.create_fsinfo.length = 512 := by
  rfl

/-- The written data of create_disk_fixed.py covers at least the reserved
sectors (boot, FSInfo and the reserved-area loop). -/
theorem CreateDiskFixed.mainPrefix_len_lb (elf : Option (List Nat)) :
    16384 ≤ (CreateDiskFixed.mainPrefix elf).length := by
  simp only [CreateDiskFixed.mainPrefix, List.length_append,
    CreateDiskFixed.create_boot_sector_len, CreateDiskFixed.create_fsinfo_len,
    CreateDiskFixed.reservedArea_len]
  omega


/-- Byte (3072 + i) of any list that starts with the boot sector, the FSInfo
sector and the reserved area of create_disk_fixed.py is byte i of the boot
sector: the backup boot sector at sector 6 mirrors sector 0. -/
theorem CreateDiskFixed.backup_bytes (T : List Nat) (i : Nat) (hi : i < 512) :
    (CreateDiskFixed.create_boot_sector ++ (CreateDiskFixed.create_fsinfo ++
      ((List.replicate 2048 0 ++ (CreateDiskFixed.create_boot_sector ++
        List.replicate 12800 0)) ++ T))).getD (3072 + i) 0 =
      CreateDiskFixed.create_boot_sector.getD i 0 := by
  rw [getD_append_right _ _ _ (show CreateDiskFixed.create_boot_sector.length ≤ 3072 + i from
      by rw [CreateDiskFixed.create_boot_sector_len]; omega),
    CreateDiskFixed.create_boot_sector_len,
    show 3072 + i - 512 = 2560 + i from by omega]
  rw [getD_append_right _ _ _ (show CreateDiskFixed.create_fsinfo.length ≤ 2560 + i from
      by rw [CreateDiskFixed.create_fsinfo_len]; omega),
    CreateDiskFixed.create_fsinfo_len,
    show 2560 + i - 512 = 2048 + i from by omega]
  rw [getD_append_left _ _ _ (show 2048 + i <
      (List.replicate 2048 0 ++ (CreateDiskFixed.create_boot_sector ++
        List.replicate 12800 0)).length from by
      simp only [List.length_append, List.length_replicate,
        CreateDiskFixed.create_boot_sector_len]
      omega)]
  rw [getD_append_right _ _ _ (show (List.replicate 2048 (0 : Nat)).length ≤ 2048 + i from
      by rw [List.length_replicate]; omega),
    List.length_replicate,
    show 2048 + i - 2048 = i from by omega]
  rw [getD_append_left _ _ _ (show i < CreateDiskFixed.create_boot_sector.length from
      by rw [CreateDiskFixed.create_boot_sector_len]; omega)]

set_option maxRecDepth 40000 in
/-- C2: the backup boot sector. In the image build_disk.py produces, byte 0
(start of the primary boot sector, the 0xEB jump) differs from byte 3072
(start of sector 6, the backup location the BPB declares at offset 50),
which stays zero because create_boot_sector writes offset 0 only — the
backup equality the claim states fails in build_disk.py. In
create_disk_fixed.py the reserved-area loop of main repeats the boot sector
at sector 6, so every byte of sector 6 equals the corresponding byte of
sector 0 there. -/
theorem claim_C2_backup_boot :
    (BuildDisk.write_fat_tables (BuildDisk.geometry 32)
      (BuildDisk.structuralState 32)).disk_image.byteAt 0 = 0xEB ∧
    (BuildDisk.write_fat_tables (BuildDisk.geometry 32)
      (BuildDisk.structuralState 32)).disk_image.byteAt 3072 = 0 ∧
    (∀ (elf : Option (List Nat)) (i : Nat), i < 512 →
      (CreateDiskFixed.mainImage elf).getD (3072 + i) 0 =
        (CreateDiskFixed.mainImage elf).getD i 0) := by
  have hbl := BuildDisk.bootSectorBytes_len
  have hfl := BuildDisk.fsinfoBytes_len
  have hrl := BuildDisk.rootDirBytes_len 32
  have einitlen : (BuildDisk.initState (BuildDisk.geometry 32)).disk_image.len = 33554432 :=
    rfl
  have eimg : (BuildDisk.structuralState 32).disk_image =
      (((BuildDisk.initState (BuildDisk.geometry 32)).disk_image.setSlice 0
          (BuildDisk.bootSectorBytes (BuildDisk.geometry 32))).setSlice 512
          BuildDisk.fsinfoBytes).setSlice 278528
        (BuildDisk.rootDirBytes (BuildDisk.geometry 32)) := by
    simp only [BuildDisk.structuralState, BuildDisk.create_root_directory,
      BuildDisk.initFat, BuildDisk.create_fsinfo, BuildDisk.create_boot_sector]
    simp only [BuildDisk.cluster_to_sector_geometry, BuildDisk.geometry_sector_size,
      BuildDisk.geometry_root_cluster]
  have hL1 : ((BuildDisk.initState (BuildDisk.geometry 32)).disk_image.setSlice 0
      (BuildDisk.bootSectorBytes (BuildDisk.geometry 32))).len = 33554432 := by
    rw [setSlice_len _ _ _ (by rw [hbl, einitlen]; omega), einitlen]
  have hL2 : (((BuildDisk.initState (BuildDisk.geometry 32)).disk_image.setSlice 0
      (BuildDisk.bootSectorBytes (BuildDisk.geometry 32))).setSlice 512
      BuildDisk.fsinfoBytes).len = 33554432 := by
    rw [setSlice_len _ _ _ (by rw [hfl, hL1]; omega), hL1]
  have hL3 : ((((BuildDisk.initState (BuildDisk.geometry 32)).disk_image.setSlice 0
      (BuildDisk.bootSectorBytes (BuildDisk.geometry 32))).setSlice 512
      BuildDisk.fsinfoBytes).setSlice 278528
      (BuildDisk.rootDirBytes (BuildDisk.geometry 32))).len = 33554432 := by
    rw [setSlice_len _ _ _ (by rw [hrl, hL2]; omega), hL2]
  have hB1_0 : ((BuildDisk.initState (BuildDisk.geometry 32)).disk_image.setSlice 0
      (BuildDisk.bootSectorBytes (BuildDisk.geometry 32))).byteAt 0 = 0xEB := by
    rw [setSlice_byteAt_mid _ _ _ _ (by rw [einitlen]; omega) (by omega) (by rw [hbl]; omega)]
    exact BuildDisk.bootSectorBytes_getD0
  have hB2_0 : (((BuildDisk.initState (BuildDisk.geometry 32)).disk_image.setSlice 0
      (BuildDisk.bootSectorBytes (BuildDisk.geometry 32))).setSlice 512
      BuildDisk.fsinfoBytes).byteAt 0 = 0xEB := by
    rw [setSlice_byteAt_lt _ _ _ _ (by omega) (by rw [hL1]; omega)]
    exact hB1_0
  have hB3_0 : ((((BuildDisk.initState (BuildDisk.geometry 32)).disk_image.setSlice 0
      (BuildDisk.bootSectorBytes (BuildDisk.geometry 32))).setSlice 512
      BuildDisk.fsinfoBytes).setSlice 278528
      (BuildDisk.rootDirBytes (BuildDisk.geometry 32))).byteAt 0 = 0xEB := by
    rw [setSlice_byteAt_lt _ _ _ _ (by omega) (by rw [hL2]; omega)]
    exact hB2_0
  have hB1_3 : ((BuildDisk.initState (BuildDisk.geometry 32)).disk_image.setSlice 0
      (BuildDisk.bootSectorBytes (BuildDisk.geometry 32))).byteAt 3072 = 0 := by
    rw [setSlice_byteAt_ge _ _ _ _ (by rw [hbl, einitlen]; omega) (by rw [hbl]; omega)]
    rfl
  have hB2_3 : (((BuildDisk.initState (BuildDisk.geometry 32)).disk_image.setSlice 0
      (BuildDisk.bootSectorBytes (BuildDisk.geometry 32))).setSlice 512
      BuildDisk.fsinfoBytes).byteAt 3072 = 0 := by
    rw [setSlice_byteAt_ge _ _ _ _ (by rw [hfl, hL1]; omega) (by rw [hfl]; omega)]
    exact hB1_3
  have hB3_3 : ((((BuildDisk.initState (BuildDisk.geometry 32)).disk_image.setSlice 0
      (BuildDisk.bootSectorBytes (BuildDisk.geometry 32))).setSlice 512
      BuildDisk.fsinfoBytes).setSlice 278528
      (BuildDisk.rootDirBytes (BuildDisk.geometry 32))).byteAt 3072 = 0 := by
    rw [setSlice_byteAt_lt _ _ _ _ (by omega) (by rw [hL2]; omega)]
    exact hB2_3
  have hFlen : (BuildDisk.fatDataBytes (BuildDisk.structuralState 32).fat_table 32768).length =
      131072 := by
    rw [BuildDisk.fatDataBytes_length]
  have eW : (BuildDisk.write_fat_tables (BuildDisk.geometry 32)
      (BuildDisk.structuralState 32)).disk_image =
      (((((BuildDisk.initState (BuildDisk.geometry 32)).disk_image.setSlice 0
          (BuildDisk.bootSectorBytes (BuildDisk.geometry 32))).setSlice 512
          BuildDisk.fsinfoBytes).setSlice 278528
          (BuildDisk.rootDirBytes (BuildDisk.geometry 32))).setSlice 16384
        (BuildDisk.fatDataBytes (BuildDisk.structuralState 32).fat_table 32768)).setSlice
        147456 (BuildDisk.fatDataBytes (BuildDisk.structuralState 32).fat_table 32768) := by
    rw [BuildDisk.write_fat_tables_eq, eimg]
  have hW1len : (((((BuildDisk.initState (BuildDisk.geometry 32)).disk_image.setSlice 0
      (BuildDisk.bootSectorBytes (BuildDisk.geometry 32))).setSlice 512
      BuildDisk.fsinfoBytes).setSlice 278528
      (BuildDisk.rootDirBytes (BuildDisk.geometry 32))).setSlice 16384
      (BuildDisk.fatDataBytes (BuildDisk.structuralState 32).fat_table 32768)).len =
      33554432 := by
    rw [setSlice_len _ _ _ (by rw [hFlen, hL3]; omega), hL3]
  refine ⟨?_, ?_, ?_⟩
  · rw [eW, setSlice_byteAt_lt _ _ _ _ (by omega) (by rw [hW1len]; omega),
      setSlice_byteAt_lt _ _ _ _ (by omega) (by rw [hL3]; omega)]
    exact hB3_0
  · rw [eW, setSlice_byteAt_lt _ _ _ _ (by omega) (by rw [hW1len]; omega),
      setSlice_byteAt_lt _ _ _ _ (by omega) (by rw [hL3]; omega)]
    exact hB3_3
  · intro elf i hi
    have hmp := CreateDiskFixed.mainPrefix_len_lb elf
    have hdec : CreateDiskFixed.mainPrefix elf =
        CreateDiskFixed.create_boot_sector ++ (CreateDiskFixed.create_fsinfo ++
          ((List.replicate 2048 0 ++ (CreateDiskFixed.create_boot_sector ++
            List.replicate 12800 0)) ++
           (CreateDiskFixed.create_fat CreateDiskFixed.total_sectors CreateDiskFixed.fat_size
              ((elf.map List.length).getD 0) ++
            (CreateDiskFixed.create_fat CreateDiskFixed.total_sectors CreateDiskFixed.fat_size
              ((elf.map List.length).getD 0) ++
             (CreateDiskFixed.create_root_directory ++
              (CreateDiskFixed.create_init_directory ((elf.map List.length).getD 0) ++
               (CreateDiskFixed.create_empty_directory 4 ++
                (CreateDiskFixed.create_empty_directory 5 ++
                 CreateDiskFixed.elfSegment elf)))))))) := by
      simp only [CreateDiskFixed.mainPrefix]
      rw [CreateDiskFixed.reservedArea_eq]
      simp only [List.append_assoc]
    have hLeft : (CreateDiskFixed.mainImage elf).getD (3072 + i) 0 =
        CreateDiskFixed.create_boot_sector.getD i 0 := by
      simp only [CreateDiskFixed.mainImage]
      rw [getD_append_left _ _ _ (show 3072 + i < (CreateDiskFixed.mainPrefix elf).length from
        by omega)]
      rw [hdec]
      exact CreateDiskFixed.backup_bytes _ i hi
    have hRight : (CreateDiskFixed.mainImage elf).getD i 0 =
        CreateDiskFixed.create_boot_sector.getD i 0 := by
      simp only [CreateDiskFixed.mainImage]
      rw [getD_append_left _ _ _ (show i < (CreateDiskFixed.mainPrefix elf).length from
        by omega)]
      rw [hdec]
      rw [getD_append_left _ _ _ (show i < CreateDiskFixed.create_boot_sector.length from
        by rw [CreateDiskFixed.create_boot_sector_len]; omega)]
    rw [hLeft, hRight]

theorem setSlice_len_ge (b : ByteBuf) (start : Nat) (data : List Nat) :
    b.len ≤ (b.setSlice start data).len := by
  simp only [ByteBuf.setSlice]
  omega

/-- One more chunk of the data-placement loop is one more slice write. -/
theorem BuildDisk.writeAllChunks_succ (g : BuildDisk.Geometry) (fd : List Nat)
    (first n : Nat) (img : ByteBuf) :
    BuildDisk.writeAllChunks g fd first (n + 1) img =
      BuildDisk.writeChunk g fd first (BuildDisk.writeAllChunks g fd first n img) n := by
  unfold BuildDisk.writeAllChunks
  rw [List.range_succ, List.foldl_append]
  rfl

/-- Without any capacity assumption, the data-placement loop never shrinks
the image and never touches a byte below the data region: slice assignment
past the end of a Python bytearray extends it instead of failing. -/
theorem BuildDisk.writeAllChunks_mono_below (m : Nat) (fd : List Nat) (first : Nat)
    (h2 : 2 ≤ first) : ∀ (n : Nat) (img : ByteBuf),
    img.len ≤ (BuildDisk.writeAllChunks (BuildDisk.geometry m) fd first n img).len ∧
    (∀ q, q < BuildDisk.chunkTargetOffset (BuildDisk.geometry m) first 0 → q < img.len →
      (BuildDisk.writeAllChunks (BuildDisk.geometry m) fd first n img).byteAt q =
        img.byteAt q) := by
  intro n
  induction n with
  | zero =>
    intro img
    exact ⟨le_refl _, fun q _ _ => rfl⟩
  | succ n ih =>
    intro img
    rw [BuildDisk.writeAllChunks_succ]
    obtain ⟨ihl, ihb⟩ := ih img
    have hoffn : BuildDisk.chunkTargetOffset (BuildDisk.geometry m) first n =
        BuildDisk.chunkTargetOffset (BuildDisk.geometry m) first 0 + n * 4096 := by
      rw [show BuildDisk.chunkTargetOffset (BuildDisk.geometry m) first n =
          BuildDisk.cluster_to_sector (BuildDisk.geometry m) (first + n) * 512 from by
        simp only [BuildDisk.chunkTargetOffset, BuildDisk.geometry_sector_size]]
      exact BuildDisk.cluster_offset_add m first n h2
    constructor
    · exact le_trans ihl (setSlice_len_ge _ _ _)
    · intro q hq1 hq2
      show (ByteBuf.setSlice _ _ _).byteAt q = _
      rw [setSlice_byteAt_lt _ _ _ _ (by omega) (by omega)]
      exact ihb q hq1 hq2

set_option maxRecDepth 8000 in
/-- C5 counterexample: the output length is not invariant under adds. On the
fresh 32 MiB builder state, adding a 33271809-byte file succeeds (the slot
scan still finds slot 0) but its 8124th chunk is slice-assigned at offset
33554432 — exactly the end of the bytearray — so Python extends the buffer:
the resulting image, and hence the saved output file, is 33558528 bytes,
not the 33554432 bytes the geometry declares. -/
theorem claim_C5_counterexample :
    (BuildDisk.add_file_to_directory (BuildDisk.geometry 32)
      (BuildDisk.initState (BuildDisk.geometry 32))
      [83, 72, 69, 76, 76, 32, 32, 32, 32, 32, 32] (List.replicate 33271809 0) 2
      { hour := 0, minute := 0, second := 0, year := 2020, month := 1, day := 1 }).isSome =
      true ∧
    ((BuildDisk.add_file_to_directory (BuildDisk.geometry 32)
        (BuildDisk.initState (BuildDisk.geometry 32))
        [83, 72, 69, 76, 76, 32, 32, 32, 32, 32, 32] (List.replicate 33271809 0) 2
        { hour := 0, minute := 0, second := 0, year := 2020, month := 1, day := 1 }).getD
      (BuildDisk.initState (BuildDisk.geometry 32))).disk_image.len = 33558528 ∧
    (BuildDisk.saveBytes ((BuildDisk.add_file_to_directory (BuildDisk.geometry 32)
        (BuildDisk.initState (BuildDisk.geometry 32))
        [83, 72, 69, 76, 76, 32, 32, 32, 32, 32, 32] (List.replicate 33271809 0) 2
        { hour := 0, minute := 0, second := 0, year := 2020, month := 1, day := 1 }).getD
      (BuildDisk.initState (BuildDisk.geometry 32)))).length = 33558528 ∧
    (BuildDisk.geometry 32).total_sectors * (BuildDisk.geometry 32).sector_size =
      33554432 := by
  have hS : 0 < (List.replicate 33271809 (0 : Nat)).length := by
    rw [List.length_replicate]
    omega
  have hn : BuildDisk.clustersNeeded (BuildDisk.geometry 32) 33271809 = 8124 := by
    rw [BuildDisk.clustersNeeded_geometry]
  have e3 : (BuildDisk.initState (BuildDisk.geometry 32)).next_free_cluster = 3 := rfl
  have einitlen : (BuildDisk.initState (BuildDisk.geometry 32)).disk_image.len =
      33554432 := rfl
  have hcto : BuildDisk.chunkTargetOffset (BuildDisk.geometry 32) 3 0 = 282624 := rfl
  have hoff2 : BuildDisk.chunkTargetOffset (BuildDisk.geometry 32) 3 8123 = 33554432 := rfl
  have haddimg : BuildDisk.addImg (BuildDisk.geometry 32)
      (BuildDisk.initState (BuildDisk.geometry 32)) (List.replicate 33271809 0) =
      BuildDisk.writeChunk (BuildDisk.geometry 32) (List.replicate 33271809 0) 3
        (BuildDisk.writeAllChunks (BuildDisk.geometry 32) (List.replicate 33271809 0) 3 8123
          (BuildDisk.initState (BuildDisk.geometry 32)).disk_image) 8123 := by
    rw [BuildDisk.addImg_eq 32 _ _ hS, List.length_replicate, hn, e3,
      show (8124 : Nat) = 8123 + 1 from rfl, BuildDisk.writeAllChunks_succ]
  obtain ⟨hWlen, hWlow, -, -⟩ := BuildDisk.writeAllChunks_spec 32 (List.replicate 33271809 0)
    3 8123 (BuildDisk.initState (BuildDisk.geometry 32)).disk_image (by omega)
    (by rw [hcto, einitlen])
  have hfin : (BuildDisk.writeChunk (BuildDisk.geometry 32) (List.replicate 33271809 0) 3
      (BuildDisk.writeAllChunks (BuildDisk.geometry 32) (List.replicate 33271809 0) 3 8123
        (BuildDisk.initState (BuildDisk.geometry 32)).disk_image) 8123).len = 33558528 := by
    show (ByteBuf.setSlice _ _ _).len = 33558528
    rw [hoff2, setSlice_len_append _ _ _ (by rw [hWlen, einitlen]),
      BuildDisk.chunkPadded_length, BuildDisk.geometry_bytes_per_cluster, hWlen, einitlen]
  have hmono := (BuildDisk.writeAllChunks_mono_below 32 (List.replicate 33271809 0) 3
    (by omega) 8123 (BuildDisk.initState (BuildDisk.geometry 32)).disk_image).2
  have hdd : BuildDisk.addDirData (BuildDisk.geometry 32)
      (BuildDisk.initState (BuildDisk.geometry 32)) (List.replicate 33271809 0) 2 =
      List.replicate 4096 0 := by
    unfold BuildDisk.addDirData
    rw [haddimg,
      show BuildDisk.cluster_to_sector (BuildDisk.geometry 32) 2 *
        (BuildDisk.geometry 32).sector_size = 278528 from rfl,
      show (278528 : Nat) + (BuildDisk.geometry 32).bytes_per_cluster = 282624 from rfl]
    apply List.ext_getElem
    · rw [getSlice_length _ _ _ (by omega) (by rw [hfin]; omega), List.length_replicate]
    · intro r h1 h2
      rw [getSlice_length _ _ _ (by omega) (by rw [hfin]; omega)] at h1
      have e1 : ((BuildDisk.writeChunk (BuildDisk.geometry 32) (List.replicate 33271809 0) 3
          (BuildDisk.writeAllChunks (BuildDisk.geometry 32) (List.replicate 33271809 0) 3
            8123 (BuildDisk.initState (BuildDisk.geometry 32)).disk_image)
          8123).getSlice 278528 282624).getD r 0 =
          (BuildDisk.writeChunk (BuildDisk.geometry 32) (List.replicate 33271809 0) 3
            (BuildDisk.writeAllChunks (BuildDisk.geometry 32) (List.replicate 33271809 0) 3
              8123 (BuildDisk.initState (BuildDisk.geometry 32)).disk_image)
            8123).byteAt (278528 + r) :=
        getSlice_getD _ _ _ _ (by omega) (by rw [hfin]; omega)
      rw [List.getD_eq_getElem?_getD, List.getElem?_eq_getElem (by omega),
        Option.getD_some] at e1
      rw [e1, List.getElem_replicate]
      show (ByteBuf.setSlice _ _ _).byteAt (278528 + r) = 0
      rw [hoff2, setSlice_byteAt_lt _ _ _ _ (by omega) (by rw [hWlen, einitlen]; omega)]
      rw [hmono (278528 + r) (by rw [hcto]; omega) (by rw [einitlen]; omega)]
      rfl
  have hscan : BuildDisk.scanSlots (BuildDisk.addDirData (BuildDisk.geometry 32)
      (BuildDisk.initState (BuildDisk.geometry 32)) (List.replicate 33271809 0) 2) 0
      (BuildDisk.addDirData (BuildDisk.geometry 32)
        (BuildDisk.initState (BuildDisk.geometry 32)) (List.replicate 33271809 0) 2).length =
      some 0 := by
    rw [hdd]
    apply BuildDisk.scanSlots_found
    · rw [List.length_replicate]
      omega
    · left
      rw [List.getD_eq_getElem?_getD, List.getElem?_replicate, if_pos (by omega)]
      rfl
    · rw [List.length_replicate]
      omega
  have hadd := BuildDisk.add_eq_of_scan (BuildDisk.geometry 32)
    (BuildDisk.initState (BuildDisk.geometry 32))
    [83, 72, 69, 76, 76, 32, 32, 32, 32, 32, 32] (List.replicate 33271809 0) 2
    { hour := 0, minute := 0, second := 0, year := 2020, month := 1, day := 1 } 0 hscan
  have hinslen : (BuildDisk.insertEntry (BuildDisk.addDirData (BuildDisk.geometry 32)
      (BuildDisk.initState (BuildDisk.geometry 32)) (List.replicate 33271809 0) 2)
      (BuildDisk.dirEntryBytes [83, 72, 69, 76, 76, 32, 32, 32, 32, 32, 32]
        (BuildDisk.timeVal { hour := 0, minute := 0, second := 0, year := 2020, month := 1, day := 1 })
        (BuildDisk.dateVal { hour := 0, minute := 0, second := 0, year := 2020, month := 1, day := 1 })
        (BuildDisk.allocChain (BuildDisk.geometry 32)
          (BuildDisk.initState (BuildDisk.geometry 32))
          (List.replicate 33271809 (0 : Nat)).length).1
        (List.replicate 33271809 (0 : Nat)).length) 0).length = 4096 := by
    rw [BuildDisk.insertEntry_length _ _ _ (by rw [hdd, List.length_replicate]; omega)
      (BuildDisk.dirEntryBytes_length _ _ _ _ _ (by decide)), hdd, List.length_replicate]
  have hlenfinal : ((BuildDisk.add_file_to_directory (BuildDisk.geometry 32)
      (BuildDisk.initState (BuildDisk.geometry 32))
      [83, 72, 69, 76, 76, 32, 32, 32, 32, 32, 32] (List.replicate 33271809 0) 2
      { hour := 0, minute := 0, second := 0, year := 2020, month := 1, day := 1 }).getD
      (BuildDisk.initState (BuildDisk.geometry 32))).disk_image.len = 33558528 := by
    rw [hadd, Option.getD_some]
    show (ByteBuf.setSlice (BuildDisk.addImg _ _ _)
      (BuildDisk.cluster_to_sector (BuildDisk.geometry 32) 2 *
        (BuildDisk.geometry 32).sector_size) _).len = 33558528
    rw [show BuildDisk.cluster_to_sector (BuildDisk.geometry 32) 2 *
        (BuildDisk.geometry 32).sector_size = 278528 from rfl]
    rw [setSlice_len _ _ _ (by rw [hinslen, haddimg, hfin]; omega), haddimg, hfin]
  refine ⟨?_, hlenfinal, ?_, rfl⟩
  · rw [hadd]
    rfl
  · show (listOfFn _ _).length = 33558528
    rw [listOfFn_length]
    exact hlenfinal

/-- C5 amended: once every added file fits inside the allocated data region,
adding never changes the image length, the saved output is exactly the
in-memory image, and the fresh image length equals totalSectors multiplied
by bytesPerSector; without the capacity condition an oversized file extends
the bytearray past the declared size (see the counterexample). -/
theorem claim_C5_length (m : Nat) (s : BuildDisk.DiskState) (fname fdata : List Nat)
    (dc : Nat) (now : BuildDisk.Now)
    (hname : fname.length = 11)
    (hS : 0 < fdata.length)
    (hdc2 : 2 ≤ dc) (hdcf : dc < s.next_free_cluster)
    (hcap : BuildDisk.chunkTargetOffset (BuildDisk.geometry m) s.next_free_cluster 0 +
      BuildDisk.clustersNeeded (BuildDisk.geometry m) fdata.length * 4096 ≤ s.disk_image.len)
    (hsucc : (BuildDisk.add_file_to_directory (BuildDisk.geometry m) s fname fdata dc
      now).isSome = true) :
    ((BuildDisk.add_file_to_directory (BuildDisk.geometry m) s fname fdata dc now).getD
      s).disk_image.len = s.disk_image.len ∧
    (BuildDisk.saveBytes ((BuildDisk.add_file_to_directory (BuildDisk.geometry m) s fname
      fdata dc now).getD s)).length = s.disk_image.len ∧
    (BuildDisk.initState (BuildDisk.geometry m)).disk_image.len =
      (BuildDisk.geometry m).total_sectors * (BuildDisk.geometry m).sector_size := by
  obtain ⟨j, hscan⟩ := BuildDisk.add_isSome_scan _ _ _ _ _ _ hsucc
  obtain ⟨-, -, -, hlen, -, -, -, -⟩ :=
    BuildDisk.add_spec m s fname fdata dc now j hname hS hdc2 hdcf hcap hscan
  refine ⟨hlen, ?_, ?_⟩
  · show (listOfFn _ _).length = s.disk_image.len
    rw [listOfFn_length]
    exact hlen
  · show (BuildDisk.geometry m).size_bytes = _
    simp only [BuildDisk.geometry_size_bytes, BuildDisk.geometry_total_sectors,
      BuildDisk.geometry_sector_size]
    omega

/-- C5 witness: a 5-byte file on the fresh 32 MiB state keeps the image at
its declared size. -/
theorem claim_C5_witness :
    0 < ([10, 20, 30, 40, 50] : List Nat).length ∧
    ((BuildDisk.add_file_to_directory (BuildDisk.geometry 32)
        (BuildDisk.initState (BuildDisk.geometry 32))
        [65, 66, 67, 68, 69, 70, 71, 72, 73, 74, 75] [10, 20, 30, 40, 50] 2
        { hour := 0, minute := 0, second := 0, year := 2020, month := 1, day := 1 }).getD
      (BuildDisk.initState (BuildDisk.geometry 32))).disk_image.len =
      (BuildDisk.initState (BuildDisk.geometry 32)).disk_image.len := by
  have hsucc : (BuildDisk.add_file_to_directory (BuildDisk.geometry 32)
      (BuildDisk.initState (BuildDisk.geometry 32))
      [65, 66, 67, 68, 69, 70, 71, 72, 73, 74, 75] [10, 20, 30, 40, 50] 2
      { hour := 0, minute := 0, second := 0, year := 2020, month := 1, day := 1 }).isSome =
      true := by
    rw [BuildDisk.add_eq_of_scan _ _ _ _ _ _ 0
      (BuildDisk.initState_scan 32 [10, 20, 30, 40, 50] (by omega) (by decide))]
    rfl
  exact ⟨by decide, (claim_C5_length 32 (BuildDisk.initState (BuildDisk.geometry 32))
    [65, 66, 67, 68, 69, 70, 71, 72, 73, 74, 75] [10, 20, 30, 40, 50] 2
    { hour := 0, minute := 0, second := 0, year := 2020, month := 1, day := 1 }
    (by decide) (by decide) (by decide) (by decide) (by decide) hsucc).1⟩

theorem packInto_length (l : List Nat) (off v : Nat) (h : off + 4 ≤ l.length) :
    (packInto l off 4 v).length = l.length := by
  unfold packInto
  rw [setSliceList_length _ _ _ (by rw [leBytes_length]; omega)]

/-- Decoding the 32-bit entry just packed at its own slot returns the packed
value. -/
theorem CreateDiskFixed.fatEntryAt_packInto_self (l : List Nat) (c v : Nat)
    (hc : 4 * c + 4 ≤ l.length) (hv : v < 4294967296) :
    CreateDiskFixed.fatEntryAt (packInto l (4 * c) 4 v) c = v := by
  unfold CreateDiskFixed.fatEntryAt packInto
  have hlen : (leBytes 4 v).length = 4 := leBytes_length 4 v
  have h0 : (setSliceList l (4 * c) (leBytes 4 v)).getD (4 * c) 0 =
      (leBytes 4 v).getD (4 * c - 4 * c) 0 :=
    setSliceList_getD_mid _ _ _ _ (by rw [hlen]; omega) (by omega) (by rw [hlen]; omega)
  have h1 : (setSliceList l (4 * c) (leBytes 4 v)).getD (4 * c + 1) 0 =
      (leBytes 4 v).getD (4 * c + 1 - 4 * c) 0 :=
    setSliceList_getD_mid _ _ _ _ (by rw [hlen]; omega) (by omega) (by rw [hlen]; omega)
  have h2 : (setSliceList l (4 * c) (leBytes 4 v)).getD (4 * c + 2) 0 =
      (leBytes 4 v).getD (4 * c + 2 - 4 * c) 0 :=
    setSliceList_getD_mid _ _ _ _ (by rw [hlen]; omega) (by omega) (by rw [hlen]; omega)
  have h3 : (setSliceList l (4 * c) (leBytes 4 v)).getD (4 * c + 3) 0 =
      (leBytes 4 v).getD (4 * c + 3 - 4 * c) 0 :=
    setSliceList_getD_mid _ _ _ _ (by rw [hlen]; omega) (by omega) (by rw [hlen]; omega)
  rw [h0, h1, h2, h3, show 4 * c - 4 * c = 0 from by omega,
    show 4 * c + 1 - 4 * c = 1 from by omega, show 4 * c + 2 - 4 * c = 2 from by omega,
    show 4 * c + 3 - 4 * c = 3 from by omega]
  show v % 256 + 256 * (v / 256 % 256) + 65536 * (v / 256 / 256 % 256) +
    16777216 * (v / 256 / 256 / 256 % 256) = v
  omega

/-- Packing a 32-bit entry at a different slot leaves a slot's decoded value
unchanged. -/
theorem CreateDiskFixed.fatEntryAt_packInto_ne (l : List Nat) (c c2 v : Nat)
    (hne : c ≠ c2) (hin : 4 * c2 + 4 ≤ l.length) :
    CreateDiskFixed.fatEntryAt (packInto l (4 * c2) 4 v) c =
      CreateDiskFixed.fatEntryAt l c := by
  unfold CreateDiskFixed.fatEntryAt packInto
  have hlen : (leBytes 4 v).length = 4 := leBytes_length 4 v
  have hb : ∀ p, 4 * c ≤ p → p < 4 * c + 4 →
      (setSliceList l (4 * c2) (leBytes 4 v)).getD p 0 = l.getD p 0 := by
    intro p hp1 hp2
    rcases Nat.lt_or_ge c c2 with h | h
    · exact setSliceList_getD_lt _ _ _ _ (by rw [hlen]; omega) (by omega)
    · exact setSliceList_getD_ge _ _ _ _ (by rw [hlen]; omega) (by rw [hlen]; omega)
  rw [hb (4 * c) (by omega) (by omega), hb (4 * c + 1) (by omega) (by omega),
    hb (4 * c + 2) (by omega) (by omega), hb (4 * c + 3) (by omega) (by omega)]

/-- The forward-pointer prefix of the chain loop of create_fat: lengths are
preserved and entry 6+i points to 6+i+1 for every written i. -/
theorem CreateDiskFixed.fatFwd_spec :
    ∀ (n : Nat) (f : List Nat), (6 + n) * 4 ≤ f.length → 6 + n < 4294967296 →
      ((List.range n).foldl (fun f2 i => packInto f2 ((6 + i) * 4) 4 (6 + i + 1)) f).length =
        f.length ∧
      (∀ c, 4 * c + 4 ≤ f.length →
        CreateDiskFixed.fatEntryAt
            ((List.range n).foldl (fun f2 i => packInto f2 ((6 + i) * 4) 4 (6 + i + 1)) f) c =
          if 6 ≤ c ∧ c < 6 + n then c + 1 else CreateDiskFixed.fatEntryAt f c) := by
  intro n
  induction n with
  | zero =>
    intro f hlen hv
    refine ⟨rfl, ?_⟩
    intro c hc
    rw [if_neg (by omega)]
    rfl
  | succ n ih =>
    intro f hlen hv
    obtain ⟨ihl, ihe⟩ := ih f (by omega) (by omega)
    rw [List.range_succ, List.foldl_append, List.foldl_cons, List.foldl_nil]
    have hstart : (6 + n) * 4 = 4 * (6 + n) := Nat.mul_comm _ _
    constructor
    · rw [hstart, packInto_length _ _ _ (by rw [ihl]; omega), ihl]
    · intro c hc
      by_cases hc6 : c = 6 + n
      · subst hc6
        rw [hstart, CreateDiskFixed.fatEntryAt_packInto_self _ _ _ (by rw [ihl]; omega)
          (by omega)]
        rw [if_pos (by omega)]
      · rw [hstart, CreateDiskFixed.fatEntryAt_packInto_ne _ _ _ _ hc6 (by rw [ihl]; omega),
          ihe c hc]
        by_cases hcin : 6 ≤ c ∧ c < 6 + n
        · rw [if_pos hcin, if_pos (by omega)]
        · rw [if_neg hcin, if_neg (by omega)]

/-- The chain loop of create_fat is the forward-pointer prefix followed by
the end-of-chain write for the last cluster. -/
theorem CreateDiskFixed.fatChainWrites_eq (f : List Nat) (n : Nat) (hn : 0 < n) :
    CreateDiskFixed.fatChainWrites f n =
      packInto ((List.range (n - 1)).foldl
          (fun f2 i => packInto f2 ((6 + i) * 4) 4 (6 + i + 1)) f)
        ((6 + (n - 1)) * 4) 4 0x0FFFFFFF := by
  obtain ⟨k, rfl⟩ : ∃ k, n = k + 1 := ⟨n - 1, by omega⟩
  unfold CreateDiskFixed.fatChainWrites
  rw [List.range_succ, List.foldl_append, List.foldl_cons, List.foldl_nil]
  rw [show k + 1 - 1 = k from rfl]
  rw [if_pos rfl]
  congr 1
  apply List.foldl_ext
  intro acc b hb
  rw [List.mem_range] at hb
  rw [if_neg (by omega)]

/-- The FAT chain create_fat of create_disk_fixed.py builds for an ELF of
size S > 0: following the serialized FAT entries from cluster 6 visits the
ceil(S/4096) consecutive clusters, every entry but the last is its
successor, and the last entry is the end-of-chain marker. -/
theorem CreateDiskFixed.create_fat_chain_spec (S : Nat) (hS : 0 < S)
    (hn : (S + 4095) / 4096 + 6 ≤ 20480) :
    BuildDisk.chainFrom
        (CreateDiskFixed.fatEntryAt
          (CreateDiskFixed.create_fat CreateDiskFixed.total_sectors CreateDiskFixed.fat_size
            S)) 6 ((S + 4095) / 4096 + 1) =
      List.range' 6 ((S + 4095) / 4096) ∧
    (∀ i, i + 1 < (S + 4095) / 4096 →
      CreateDiskFixed.fatEntryAt
        (CreateDiskFixed.create_fat CreateDiskFixed.total_sectors CreateDiskFixed.fat_size S)
        (6 + i) = 6 + i + 1) ∧
    0x0FFFFFF8 ≤ CreateDiskFixed.fatEntryAt
      (CreateDiskFixed.create_fat CreateDiskFixed.total_sectors CreateDiskFixed.fat_size S)
      (6 + ((S + 4095) / 4096 - 1)) := by
  have hn1 : 1 ≤ (S + 4095) / 4096 := by omega
  have hcfat : CreateDiskFixed.create_fat CreateDiskFixed.total_sectors
      CreateDiskFixed.fat_size S =
      CreateDiskFixed.fatChainWrites
        (packInto (packInto (packInto (packInto (packInto (packInto
          (List.replicate (CreateDiskFixed.fat_size * CreateDiskFixed.BYTES_PER_SECTOR) 0)
          0 4 0x0FFFFFF8) 4 4 0x0FFFFFFF) 8 4 0x0FFFFFFF) 12 4 0x0FFFFFFF) 16 4 0x0FFFFFFF)
          20 4 0x0FFFFFFF)
        ((S + 4095) / 4096) := by
    simp only [CreateDiskFixed.create_fat]
    rw [if_pos hS, show CreateDiskFixed.BYTES_PER_CLUSTER = 4096 from rfl,
      show ∀ x : Nat, x + 4096 - 1 = x + 4095 from fun x => by omega]
  have b0 : (List.replicate (CreateDiskFixed.fat_size * CreateDiskFixed.BYTES_PER_SECTOR)
      (0 : Nat)).length = 81920 := by
    rw [List.length_replicate]
    rfl
  have b1 : (packInto (List.replicate
      (CreateDiskFixed.fat_size * CreateDiskFixed.BYTES_PER_SECTOR) 0)
      0 4 0x0FFFFFF8).length = 81920 := by
    rw [packInto_length _ _ _ (by rw [b0]; omega), b0]
  have b2 : (packInto (packInto (List.replicate
      (CreateDiskFixed.fat_size * CreateDiskFixed.BYTES_PER_SECTOR) 0)
      0 4 0x0FFFFFF8) 4 4 0x0FFFFFFF).length = 81920 := by
    rw [packInto_length _ _ _ (by rw [b1]; omega), b1]
  have b3 : (packInto (packInto (packInto (List.replicate
      (CreateDiskFixed.fat_size * CreateDiskFixed.BYTES_PER_SECTOR) 0)
      0 4 0x0FFFFFF8) 4 4 0x0FFFFFFF) 8 4 0x0FFFFFFF).length = 81920 := by
    rw [packInto_length _ _ _ (by rw [b2]; omega), b2]
  have b4 : (packInto (packInto (packInto (packInto (List.replicate
      (CreateDiskFixed.fat_size * CreateDiskFixed.BYTES_PER_SECTOR) 0)
      0 4 0x0FFFFFF8) 4 4 0x0FFFFFFF) 8 4 0x0FFFFFFF) 12 4 0x0FFFFFFF).length = 81920 := by
    rw [packInto_length _ _ _ (by rw [b3]; omega), b3]
  have b5 : (packInto (packInto (packInto (packInto (packInto (List.replicate
      (CreateDiskFixed.fat_size * CreateDiskFixed.BYTES_PER_SECTOR) 0)
      0 4 0x0FFFFFF8) 4 4 0x0FFFFFFF) 8 4 0x0FFFFFFF) 12 4 0x0FFFFFFF)
      16 4 0x0FFFFFFF).length = 81920 := by
    rw [packInto_length _ _ _ (by rw [b4]; omega), b4]
  have hbaselen : (packInto (packInto (packInto (packInto (packInto (packInto
      (List.replicate (CreateDiskFixed.fat_size * CreateDiskFixed.BYTES_PER_SECTOR) 0)
      0 4 0x0FFFFFF8) 4 4 0x0FFFFFFF) 8 4 0x0FFFFFFF) 12 4 0x0FFFFFFF) 16 4 0x0FFFFFFF)
      20 4 0x0FFFFFFF).length = 81920 := by
    rw [packInto_length _ _ _ (by rw [b5]; omega), b5]
  obtain ⟨hfwlen, hfwent⟩ := CreateDiskFixed.fatFwd_spec ((S + 4095) / 4096 - 1)
    (packInto (packInto (packInto (packInto (packInto (packInto
      (List.replicate (CreateDiskFixed.fat_size * CreateDiskFixed.BYTES_PER_SECTOR) 0)
      0 4 0x0FFFFFF8) 4 4 0x0FFFFFFF) 8 4 0x0FFFFFFF) 12 4 0x0FFFFFFF) 16 4 0x0FFFFFFF)
      20 4 0x0FFFFFFF)
    (by rw [hbaselen]; omega) (by omega)
  have hfw := CreateDiskFixed.fatChainWrites_eq
    (packInto (packInto (packInto (packInto (packInto (packInto
      (List.replicate (CreateDiskFixed.fat_size * CreateDiskFixed.BYTES_PER_SECTOR) 0)
      0 4 0x0FFFFFF8) 4 4 0x0FFFFFFF) 8 4 0x0FFFFFFF) 12 4 0x0FFFFFFF) 16 4 0x0FFFFFFF)
      20 4 0x0FFFFFFF)
    ((S + 4095) / 4096) (by omega)
  have hstart : (6 + ((S + 4095) / 4096 - 1)) * 4 = 4 * (6 + ((S + 4095) / 4096 - 1)) :=
    Nat.mul_comm _ _
  have hmid : ∀ i, i + 1 < (S + 4095) / 4096 →
      CreateDiskFixed.fatEntryAt
        (CreateDiskFixed.create_fat CreateDiskFixed.total_sectors CreateDiskFixed.fat_size S)
        (6 + i) = 6 + i + 1 := by
    intro i hi
    rw [hcfat, hfw, hstart,
      CreateDiskFixed.fatEntryAt_packInto_ne _ _ _ _ (by omega)
        (by rw [hfwlen, hbaselen]; omega),
      hfwent (6 + i) (by rw [hbaselen]; omega), if_pos (by omega)]
  have hlast : CreateDiskFixed.fatEntryAt
      (CreateDiskFixed.create_fat CreateDiskFixed.total_sectors CreateDiskFixed.fat_size S)
      (6 + ((S + 4095) / 4096 - 1)) = 0x0FFFFFFF := by
    rw [hcfat, hfw, hstart,
      CreateDiskFixed.fatEntryAt_packInto_self _ _ _ (by rw [hfwlen, hbaselen]; omega)
        (by omega)]
  refine ⟨?_, hmid, by rw [hlast]; omega⟩
  exact BuildDisk.chainFrom_range' ((S + 4095) / 4096) _ 6 hn1 hmid (by rw [hlast]; omega)
    (by omega)

/-- C4: FAT chains have the declared shape in both builders. In
build_disk.py, adding a file of size S > 0 yields a FAT chain of exactly
ceil(S / bytesPerCluster) entries: following the FAT from the first cluster
visits exactly those clusters in order, every entry but the last holds a
cluster index strictly greater than its own index (its successor), and the
last entry holds an end-of-chain marker (at least 0x0FFFFFF8). In
create_disk_fixed.py, create_fat builds the same shape for an ELF of size
cdfS > 0 starting at cluster 6, read back from the serialized 32-bit
little-endian entries. -/
theorem claim_C4_fat_chain (m : Nat) (s : BuildDisk.DiskState) (fname fdata : List Nat)
    (dc : Nat) (now : BuildDisk.Now) (cdfS : Nat)
    (hname : fname.length = 11)
    (hS : 0 < fdata.length)
    (hdc2 : 2 ≤ dc) (hdcf : dc < s.next_free_cluster)
    (hfat : s.next_free_cluster + BuildDisk.clustersNeeded (BuildDisk.geometry m) fdata.length ≤
      BuildDisk.fatTableLen (BuildDisk.geometry m))
    (hcap : BuildDisk.chunkTargetOffset (BuildDisk.geometry m) s.next_free_cluster 0 +
      BuildDisk.clustersNeeded (BuildDisk.geometry m) fdata.length * 4096 ≤ s.disk_image.len)
    (hsucc : (BuildDisk.add_file_to_directory (BuildDisk.geometry m) s fname fdata dc
      now).isSome = true)
    (hcS : 0 < cdfS)
    (hccap : (cdfS + 4095) / 4096 + 6 ≤ 20480) :
    BuildDisk.chainFrom
        ((BuildDisk.add_file_to_directory (BuildDisk.geometry m) s fname fdata dc now).getD
          s).fat_table s.next_free_cluster
        (BuildDisk.clustersNeeded (BuildDisk.geometry m) fdata.length + 1) =
      List.range' s.next_free_cluster
        (BuildDisk.clustersNeeded (BuildDisk.geometry m) fdata.length) ∧
    (BuildDisk.chainFrom
        ((BuildDisk.add_file_to_directory (BuildDisk.geometry m) s fname fdata dc now).getD
          s).fat_table s.next_free_cluster
        (BuildDisk.clustersNeeded (BuildDisk.geometry m) fdata.length + 1)).length =
      BuildDisk.clustersNeeded (BuildDisk.geometry m) fdata.length ∧
    (∀ i, i + 1 < BuildDisk.clustersNeeded (BuildDisk.geometry m) fdata.length →
      ((BuildDisk.add_file_to_directory (BuildDisk.geometry m) s fname fdata dc now).getD
          s).fat_table (s.next_free_cluster + i) = s.next_free_cluster + i + 1 ∧
      s.next_free_cluster + i <
        ((BuildDisk.add_file_to_directory (BuildDisk.geometry m) s fname fdata dc now).getD
          s).fat_table (s.next_free_cluster + i)) ∧
    0x0FFFFFF8 ≤
      ((BuildDisk.add_file_to_directory (BuildDisk.geometry m) s fname fdata dc now).getD
        s).fat_table
        (s.next_free_cluster +
          (BuildDisk.clustersNeeded (BuildDisk.geometry m) fdata.length - 1)) ∧
    BuildDisk.chainFrom
        (CreateDiskFixed.fatEntryAt
          (CreateDiskFixed.create_fat CreateDiskFixed.total_sectors CreateDiskFixed.fat_size
            cdfS)) 6 ((cdfS + 4095) / 4096 + 1) =
      List.range' 6 ((cdfS + 4095) / 4096) ∧
    (∀ i, i + 1 < (cdfS + 4095) / 4096 →
      CreateDiskFixed.fatEntryAt
          (CreateDiskFixed.create_fat CreateDiskFixed.total_sectors CreateDiskFixed.fat_size
            cdfS) (6 + i) = 6 + i + 1 ∧
      6 + i < CreateDiskFixed.fatEntryAt
        (CreateDiskFixed.create_fat CreateDiskFixed.total_sectors CreateDiskFixed.fat_size
          cdfS) (6 + i)) ∧
    0x0FFFFFF8 ≤ CreateDiskFixed.fatEntryAt
      (CreateDiskFixed.create_fat CreateDiskFixed.total_sectors CreateDiskFixed.fat_size cdfS)
      (6 + ((cdfS + 4095) / 4096 - 1)) := by
  obtain ⟨hchain, hmid, hlast⟩ :=
    BuildDisk.add_chain_spec m s fname fdata dc now hname hS hdc2 hdcf hfat hcap hsucc
  obtain ⟨cchain, cmid, clast⟩ := CreateDiskFixed.create_fat_chain_spec cdfS hcS hccap
  refine ⟨hchain, by rw [hchain, List.length_range'], ?_, by rw [hlast]; omega,
    cchain, ?_, clast⟩
  · intro i hi
    exact ⟨hmid i hi, by rw [hmid i hi]; omega⟩
  · intro i hi
    exact ⟨cmid i hi, by rw [cmid i hi]; omega⟩

/-- C4 witness: a 3-byte file added to a fresh 32 MiB builder state gets the
one-cluster chain [3], with a 3-byte ELF on the fixed variant's side. -/
theorem claim_C4_witness :
    0 < ([1, 2, 3] : List Nat).length ∧
    BuildDisk.chainFrom
        ((BuildDisk.add_file_to_directory (BuildDisk.geometry 32)
            (BuildDisk.initState (BuildDisk.geometry 32))
            [65, 66, 67, 68, 69, 70, 71, 72, 73, 74, 75] [1, 2, 3] 2
            { hour := 0, minute := 0, second := 0, year := 2020, month := 1, day := 1 }).getD
          (BuildDisk.initState (BuildDisk.geometry 32))).fat_table 3
        (BuildDisk.clustersNeeded (BuildDisk.geometry 32) ([1, 2, 3] : List Nat).length + 1) =
      List.range' 3 (BuildDisk.clustersNeeded (BuildDisk.geometry 32)
        ([1, 2, 3] : List Nat).length) := by
  have hsucc : (BuildDisk.add_file_to_directory (BuildDisk.geometry 32)
      (BuildDisk.initState (BuildDisk.geometry 32))
      [65, 66, 67, 68, 69, 70, 71, 72, 73, 74, 75] [1, 2, 3] 2
      { hour := 0, minute := 0, second := 0, year := 2020, month := 1, day := 1 }).isSome =
      true := by
    rw [BuildDisk.add_eq_of_scan _ _ _ _ _ _ 0
      (BuildDisk.initState_scan 32 [1, 2, 3] (by omega) (by decide))]
    rfl
  exact ⟨by decide, (claim_C4_fat_chain 32 (BuildDisk.initState (BuildDisk.geometry 32))
    [65, 66, 67, 68, 69, 70, 71, 72, 73, 74, 75] [1, 2, 3] 2
    { hour := 0, minute := 0, second := 0, year := 2020, month := 1, day := 1 } 3
    (by decide) (by decide) (by decide) (by decide) (by decide) (by decide) hsucc
    (by decide) (by decide)).1⟩

end NumOS
